import Mathlib

/-!
A shallow embedding of the `micro-spl-gov` repository: the TypeScript SDK
(`src/sdk/compression.ts`), its test-suite counterpart
(`src/tests/compression.test.ts`), and a spec-modelled election state
machine for the on-chain program whose Rust sources are not part of this
repository snapshot.  Node `Buffer`s are byte lists, TS `number` values are
`Int` or `Nat` as appropriate, and `keccak_256` (imported by the SDK from
`js-sha3`) is an executable Keccak-256 implementation below, with its round
constants and rotation offsets generated from the Keccak reference LFSR and
rho/pi walk.
-/

/-- A byte, one cell of a Node `Buffer`. -/
abbrev Byte := Fin 256

/-- A byte string, the contents of a Node `Buffer`. -/
abbrev Bytes := List Byte

/-- Reduce a natural number to a byte (`n mod 256`). -/
def byteOf (n : Nat) : Byte := ⟨n % 256, Nat.mod_lt n (by norm_num)⟩

namespace Keccak

/-- One step of the 8-bit LFSR (taps `x^8 + x^6 + x^5 + x^4 + 1`) that
generates the Keccak round-constant bits. -/
def lfsrStep (r : Nat) : Nat :=
  let s := r * 2
  if s < 256 then s else (s % 256) ^^^ 0x71

/-- LFSR state after `t` steps from the initial state `1`. -/
def lfsr : Nat → Nat
  | 0 => 1
  | t + 1 => lfsrStep (lfsr t)

/-- Round-constant bit `rc(t)` of the Keccak specification. -/
def rcBit (t : Nat) : Nat := lfsr (t % 255) % 2

/-- Round constant of round `i`, generated bit by bit from the LFSR:
bit `2^j - 1` of the constant is `rc(j + 7 i)`. -/
def roundConstGen (i : Nat) : Nat :=
  (List.range 7).foldl (fun acc j => acc + rcBit (j + 7 * i) * 2 ^ (2 ^ j - 1)) 0

/-- Position of the lane moved at step `t` of the rho/pi walk that starts at
`(1, 0)` and steps by `(x, y) ↦ (y, (2x + 3y) mod 5)`. -/
def rhoPiWalk : Nat → Nat × Nat
  | 0 => (1, 0)
  | t + 1 => ((rhoPiWalk t).2, (2 * (rhoPiWalk t).1 + 3 * (rhoPiWalk t).2) % 5)

/-- Rotation offset of lane `(x, y)`, generated from the rho/pi walk:
offset `(t+1)(t+2)/2 mod 64` at walk step `t`, and `0` for lane `(0, 0)`. -/
def rotOffsetGen (x y : Nat) : Nat :=
  (List.range 24).foldl
    (fun acc t => if rhoPiWalk t = (x, y) then ((t + 1) * (t + 2) / 2) % 64 else acc) 0

/-- The 24 round constants of Keccak-f[1600], as literals;
`roundConstants_generated` checks them against the LFSR generator. -/
def roundConstants : List Nat :=
  [1, 32898, 9223372036854808714, 9223372039002292224, 32907, 2147483649,
   9223372039002292353, 9223372036854808585, 138, 136, 2147516425, 2147483658,
   2147516555, 9223372036854775947, 9223372036854808713, 9223372036854808579,
   9223372036854808578, 9223372036854775936, 32778, 9223372039002259466,
   9223372039002292353, 9223372036854808704, 2147483649, 9223372039002292232]

/-- Rotate a 64-bit lane left by `n`. -/
def rotl64 (x n : Nat) : Nat :=
  ((x <<< (n % 64)) + (x >>> (64 - n % 64))) % 2 ^ 64

/-- The 25-lane sponge state, one 64-bit lane per field, indexed `x + 5 y`. -/
structure KState where
  (a0 a1 a2 a3 a4 a5 a6 a7 a8 a9 a10 a11 a12 : Nat)
  (a13 a14 a15 a16 a17 a18 a19 a20 a21 a22 a23 a24 : Nat)

/-- The theta step of Keccak-f[1600]. -/
def theta (s : KState) : KState :=
  let c0 := s.a0 ^^^ s.a5 ^^^ s.a10 ^^^ s.a15 ^^^ s.a20
  let c1 := s.a1 ^^^ s.a6 ^^^ s.a11 ^^^ s.a16 ^^^ s.a21
  let c2 := s.a2 ^^^ s.a7 ^^^ s.a12 ^^^ s.a17 ^^^ s.a22
  let c3 := s.a3 ^^^ s.a8 ^^^ s.a13 ^^^ s.a18 ^^^ s.a23
  let c4 := s.a4 ^^^ s.a9 ^^^ s.a14 ^^^ s.a19 ^^^ s.a24
  let d0 := c4 ^^^ rotl64 c1 1
  let d1 := c0 ^^^ rotl64 c2 1
  let d2 := c1 ^^^ rotl64 c3 1
  let d3 := c2 ^^^ rotl64 c4 1
  let d4 := c3 ^^^ rotl64 c0 1
  ⟨s.a0 ^^^ d0, s.a1 ^^^ d1, s.a2 ^^^ d2, s.a3 ^^^ d3, s.a4 ^^^ d4, s.a5 ^^^ d0, s.a6 ^^^ d1, s.a7 ^^^ d2, s.a8 ^^^ d3, s.a9 ^^^ d4, s.a10 ^^^ d0, s.a11 ^^^ d1, s.a12 ^^^ d2, s.a13 ^^^ d3, s.a14 ^^^ d4, s.a15 ^^^ d0, s.a16 ^^^ d1, s.a17 ^^^ d2, s.a18 ^^^ d3, s.a19 ^^^ d4, s.a20 ^^^ d0, s.a21 ^^^ d1, s.a22 ^^^ d2, s.a23 ^^^ d3, s.a24 ^^^ d4⟩

/-- The combined rho and pi steps: the lane at `x' + 5 y'` lands, rotated by
its offset, at index `y' + 5 ((2 x' + 3 y') mod 5)`. -/
def rhoPi (s : KState) : KState :=
  ⟨s.a0, rotl64 s.a6 44, rotl64 s.a12 43, rotl64 s.a18 21, rotl64 s.a24 14, rotl64 s.a3 28, rotl64 s.a9 20, rotl64 s.a10 3, rotl64 s.a16 45, rotl64 s.a22 61, rotl64 s.a1 1, rotl64 s.a7 6, rotl64 s.a13 25, rotl64 s.a19 8, rotl64 s.a20 18, rotl64 s.a4 27, rotl64 s.a5 36, rotl64 s.a11 10, rotl64 s.a17 15, rotl64 s.a23 56, rotl64 s.a2 62, rotl64 s.a8 55, rotl64 s.a14 39, rotl64 s.a15 41, rotl64 s.a21 2⟩

/-- The chi step of Keccak-f[1600]. -/
def chi (s : KState) : KState :=
  let m := 2 ^ 64 - 1
  ⟨s.a0 ^^^ ((s.a1 ^^^ m) &&& s.a2),
   s.a1 ^^^ ((s.a2 ^^^ m) &&& s.a3),
   s.a2 ^^^ ((s.a3 ^^^ m) &&& s.a4),
   s.a3 ^^^ ((s.a4 ^^^ m) &&& s.a0),
   s.a4 ^^^ ((s.a0 ^^^ m) &&& s.a1),
   s.a5 ^^^ ((s.a6 ^^^ m) &&& s.a7),
   s.a6 ^^^ ((s.a7 ^^^ m) &&& s.a8),
   s.a7 ^^^ ((s.a8 ^^^ m) &&& s.a9),
   s.a8 ^^^ ((s.a9 ^^^ m) &&& s.a5),
   s.a9 ^^^ ((s.a5 ^^^ m) &&& s.a6),
   s.a10 ^^^ ((s.a11 ^^^ m) &&& s.a12),
   s.a11 ^^^ ((s.a12 ^^^ m) &&& s.a13),
   s.a12 ^^^ ((s.a13 ^^^ m) &&& s.a14),
   s.a13 ^^^ ((s.a14 ^^^ m) &&& s.a10),
   s.a14 ^^^ ((s.a10 ^^^ m) &&& s.a11),
   s.a15 ^^^ ((s.a16 ^^^ m) &&& s.a17),
   s.a16 ^^^ ((s.a17 ^^^ m) &&& s.a18),
   s.a17 ^^^ ((s.a18 ^^^ m) &&& s.a19),
   s.a18 ^^^ ((s.a19 ^^^ m) &&& s.a15),
   s.a19 ^^^ ((s.a15 ^^^ m) &&& s.a16),
   s.a20 ^^^ ((s.a21 ^^^ m) &&& s.a22),
   s.a21 ^^^ ((s.a22 ^^^ m) &&& s.a23),
   s.a22 ^^^ ((s.a23 ^^^ m) &&& s.a24),
   s.a23 ^^^ ((s.a24 ^^^ m) &&& s.a20),
   s.a24 ^^^ ((s.a20 ^^^ m) &&& s.a21)⟩

/-- One round of Keccak-f[1600] (theta, rho, pi, chi, iota) with round
constant `rc`. -/
def keccakRound (rc : Nat) (s : KState) : KState :=
  let t := chi (rhoPi (theta s))
  { t with a0 := t.a0 ^^^ rc }

/-- The Keccak-f[1600] permutation: 24 rounds. -/
def keccakF (s : KState) : KState :=
  roundConstants.foldl (fun st rc => keccakRound rc st) s

/-- Multi-rate Keccak padding `0x01 .. 0x80` at rate 136 bytes (the
original Keccak padding used by js-sha3's `keccak_256`, not the SHA-3
`0x06` variant). -/
def padMessage (m : List Nat) : List Nat :=
  let q := 136 - m.length % 136
  if q = 1 then m ++ [0x81]
  else m ++ [0x01] ++ List.replicate (q - 2) 0 ++ [0x80]

/-- A 64-bit lane from (up to) eight little-endian bytes. -/
def laneOfBytes (bs : List Nat) : Nat := bs.foldr (fun b acc => b + 256 * acc) 0

/-- The 17 lanes of one 136-byte block. -/
def lanesOfBlock (block : List Nat) : List Nat :=
  (List.range 17).map fun j => laneOfBytes ((block.drop (8 * j)).take 8)

/-- Absorb one 136-byte block into the state (rate: the first 17 lanes) and
permute. -/
def absorbBlock (s : KState) (block : List Nat) : KState :=
  let L := lanesOfBlock block
  keccakF
    ⟨s.a0 ^^^ L.getD 0 0, s.a1 ^^^ L.getD 1 0, s.a2 ^^^ L.getD 2 0,
     s.a3 ^^^ L.getD 3 0, s.a4 ^^^ L.getD 4 0, s.a5 ^^^ L.getD 5 0,
     s.a6 ^^^ L.getD 6 0, s.a7 ^^^ L.getD 7 0, s.a8 ^^^ L.getD 8 0,
     s.a9 ^^^ L.getD 9 0, s.a10 ^^^ L.getD 10 0, s.a11 ^^^ L.getD 11 0,
     s.a12 ^^^ L.getD 12 0, s.a13 ^^^ L.getD 13 0, s.a14 ^^^ L.getD 14 0,
     s.a15 ^^^ L.getD 15 0, s.a16 ^^^ L.getD 16 0, s.a17, s.a18, s.a19,
     s.a20, s.a21, s.a22, s.a23, s.a24⟩

/-- Absorb `n` consecutive 136-byte blocks of the padded message. -/
def absorbBlocks (s : KState) (bytes : List Nat) : Nat → KState
  | 0 => s
  | n + 1 => absorbBlocks (absorbBlock s (bytes.take 136)) (bytes.drop 136) n

/-- The first 32 output bytes of the sponge state, little-endian per lane. -/
def squeeze (s : KState) : List Nat :=
  (List.range 32).map fun i =>
    (([s.a0, s.a1, s.a2, s.a3].getD (i / 8) 0) >>> (8 * (i % 8))) % 256

/-- Keccak-256 on raw byte values. -/
def keccak256Nat (m : List Nat) : List Nat :=
  let p := padMessage m
  squeeze (absorbBlocks
    ⟨0, 0, 0, 0, 0, 0, 0, 0, 0, 0, 0, 0, 0, 0, 0, 0, 0, 0, 0, 0, 0, 0, 0, 0, 0⟩
    p (p.length / 136))

end Keccak

/-- Keccak-256 on byte strings: the `keccak_256` function the SDK imports
from `js-sha3`. -/
def keccak_256 (m : Bytes) : Bytes :=
  (Keccak.keccak256Nat (m.map Fin.val)).map byteOf

namespace Compression

/-- `Buffer.writeBigInt64LE`: a TS integer as the eight little-endian bytes of
its 64-bit two's-complement representation (the TS call throws outside
`[-2^63, 2^63)`; theorems about it carry that bound). -/
def writeBigInt64LE (t : Int) : Bytes :=
  (List.range 8).map fun i => byteOf ((t % (2 ^ 64 : Int)).toNat >>> (8 * i))

/-- `createCompressedVoterLeaf` from `src/sdk/compression.ts`: keccak-256 of
`voter.toBytes() ‖ election.toBytes() ‖ attestation.toBytes() ‖ registeredAt`
with the timestamp written by `writeBigInt64LE`. -/
def createCompressedVoterLeaf (voter election attestation : Bytes)
    (registeredAt : Int) : Bytes :=
  keccak_256 (voter ++ election ++ attestation ++ writeBigInt64LE registeredAt)

/-- `SimpleMerkleTree.addLeaf`: push the leaf onto the leaf list. -/
def addLeaf (leaves : List Bytes) (leaf : Bytes) : List Bytes := leaves ++ [leaf]

/-- `SimpleMerkleTree.getRoot`: the all-zero buffer for an empty tree, the
sole leaf for a one-leaf tree, and otherwise — per the MVP comment in the
source — the last leaf. -/
def getRoot (leaves : List Bytes) : Bytes :=
  if leaves.length = 0 then List.replicate 32 (byteOf 0)
  else if leaves.length = 1 then leaves.getD 0 []
  else leaves.getD (leaves.length - 1) []

/-- `SimpleMerkleTree.getProof`: the MVP implementation returns the empty
proof whatever the tree's leaves and the index are. -/
def getProof (leaves : List Bytes) (leafIndex : Nat) : List Bytes := []

/-- The hash chain inside `SimpleMerkleTree.verifyProof`.  The source tests
`(leafIndex & (1 << i)) === 0`; JavaScript shift counts are reduced mod 32,
so the test reads bit `i mod 32` of `leafIndex` (bits of the 32-bit
truncation of `leafIndex` below position 32 agree with those of
`leafIndex` itself). -/
def proofFold (current : Bytes) (proof : List Bytes) (leafIndex i : Nat) :
    Bytes :=
  match proof with
  | [] => current
  | sibling :: rest =>
      if Nat.testBit leafIndex (i % 32) then
        proofFold (keccak_256 (sibling ++ current)) rest leafIndex (i + 1)
      else
        proofFold (keccak_256 (current ++ sibling)) rest leafIndex (i + 1)

/-- `SimpleMerkleTree.verifyProof`: with an empty proof, buffer equality of
leaf and root; otherwise the reconstructed hash chain is compared with the
root. -/
def verifyProof (leaf : Bytes) (proof : List Bytes) (leafIndex : Nat)
    (root : Bytes) : Bool :=
  if proof.length = 0 then decide (leaf = root)
  else decide (proofFold leaf proof leafIndex 0 = root)

/-- `getMerkleTreeSize` from `src/sdk/compression.ts`: tiered
depth/buffer-size choice from the declared voter ceiling. -/
def getMerkleTreeSize (maxVoters : Int) : Int × Int :=
  if maxVoters ≤ 1024 then (10, 64)
  else if maxVoters ≤ 4096 then (12, 64)
  else if maxVoters ≤ 16384 then (14, 64)
  else (20, 256)

/-- `createNullifier` from `src/sdk/compression.ts`: keccak-256 of
`voter.toBytes() ‖ election.toBytes() ‖ nonce` with the nonce written by
`writeBigInt64LE`. -/
def createNullifier (voter election : Bytes) (nonce : Int) : Bytes :=
  keccak_256 (voter ++ election ++ writeBigInt64LE nonce)

/-- `createNullifier` as called with the nonce argument omitted: the TS
declaration defaults it to `0`. -/
def createNullifierDefaultNonce (voter election : Bytes) : Bytes :=
  createNullifier voter election 0

end Compression

namespace CompressionTest

/-- The test suite's own copy of `createCompressedVoterLeaf`
(`src/tests/compression.test.ts`, lines 35-59), translated independently of
the SDK copy. -/
def createCompressedVoterLeaf (voter election attestation : Bytes)
    (registeredAt : Int) : Bytes :=
  keccak_256 (voter ++ election ++ attestation ++
    Compression.writeBigInt64LE registeredAt)

end CompressionTest

/-- Root reconstruction exactly as claim C2 words it: at level `i` the
concatenation order is chosen by bit `i` of `leafIndex` (no JavaScript
32-bit reduction of the level). -/
def claimFold (current : Bytes) (proof : List Bytes) (leafIndex i : Nat) :
    Bytes :=
  match proof with
  | [] => current
  | sibling :: rest =>
      if Nat.testBit leafIndex i then
        claimFold (keccak_256 (sibling ++ current)) rest leafIndex (i + 1)
      else
        claimFold (keccak_256 (current ++ sibling)) rest leafIndex (i + 1)

/-- The reconstructed root of claim C2. -/
def claimReconstructRoot (leaf : Bytes) (proof : List Bytes)
    (leafIndex : Nat) : Bytes :=
  claimFold leaf proof leafIndex 0

/-- The all-zero 32-byte buffer used as leaf and as every sibling of the
C2 counterexample. -/
def c2Sib : Bytes := List.replicate 32 (byteOf 0)

/-- The leaf of the C2 counterexample. -/
def c2Leaf : Bytes := List.replicate 32 (byteOf 0)

/-- A 33-sibling proof: long enough that the loop reaches level 32, where
the JavaScript shift `1 << 32` wraps to `1 << 0`. -/
def c2Proof : List Bytes := List.replicate 33 c2Sib

/-- Hash-chain value after step 0 of `verifyProof` on the C2 input. -/
def c2v1 : Bytes :=
  [173, 50, 40, 182, 118, 247, 211, 205, 66, 132, 165, 68, 63, 23, 241, 150,
   43, 54, 228, 145, 179, 10, 64, 178, 64, 88, 73, 229, 151, 186, 95, 181].map byteOf

/-- Hash-chain value after step 1 of `verifyProof` on the C2 input. -/
def c2v2 : Bytes :=
  [151, 201, 42, 223, 138, 58, 77, 34, 9, 22, 168, 155, 135, 164, 224, 94,
   178, 17, 71, 51, 236, 220, 235, 195, 51, 72, 4, 43, 88, 220, 28, 61].map byteOf

/-- Hash-chain value after step 2 of `verifyProof` on the C2 input. -/
def c2v3 : Bytes :=
  [176, 71, 202, 155, 224, 98, 19, 247, 238, 2, 38, 236, 212, 146, 207, 10,
   137, 86, 152, 115, 81, 165, 94, 84, 190, 24, 75, 217, 124, 49, 103, 201].map byteOf

/-- Hash-chain value after step 3 of `verifyProof` on the C2 input. -/
def c2v4 : Bytes :=
  [117, 92, 185, 53, 133, 176, 103, 176, 175, 118, 202, 124, 78, 7, 105, 67,
   107, 2, 214, 106, 182, 111, 163, 163, 140, 191, 223, 64, 59, 218, 73, 201].map byteOf

/-- Hash-chain value after step 4 of `verifyProof` on the C2 input. -/
def c2v5 : Bytes :=
  [22, 158, 12, 225, 72, 72, 192, 103, 69, 81, 254, 222, 29, 202, 55, 118,
   232, 56, 175, 60, 154, 140, 104, 18, 216, 85, 67, 25, 101, 197, 212, 165].map byteOf

/-- Hash-chain value after step 5 of `verifyProof` on the C2 input. -/
def c2v6 : Bytes :=
  [165, 98, 21, 14, 177, 156, 97, 89, 76, 205, 49, 77, 154, 43, 76, 185, 64,
   104, 30, 217, 144, 131, 146, 187, 6, 205, 118, 186, 50, 234, 210, 241].map byteOf

/-- Hash-chain value after step 6 of `verifyProof` on the C2 input. -/
def c2v7 : Bytes :=
  [176, 87, 138, 20, 151, 85, 255, 119, 194, 17, 20, 227, 112, 95, 239, 88,
   144, 194, 139, 163, 245, 188, 230, 120, 122, 133, 232, 17, 147, 0, 243,
   66].map byteOf

/-- Hash-chain value after step 7 of `verifyProof` on the C2 input. -/
def c2v8 : Bytes :=
  [98, 132, 133, 125, 182, 85, 221, 233, 114, 141, 27, 126, 196, 218, 219,
   227, 237, 171, 242, 11, 40, 33, 234, 180, 48, 70, 39, 233, 157, 168, 53,
   202].map byteOf

/-- Hash-chain value after step 8 of `verifyProof` on the C2 input. -/
def c2v9 : Bytes :=
  [23, 203, 9, 216, 119, 120, 135, 7, 76, 97, 208, 192, 225, 126, 116, 7,
   109, 24, 171, 79, 126, 171, 196, 10, 243, 20, 134, 124, 121, 15, 112, 96].map byteOf

/-- Hash-chain value after step 9 of `verifyProof` on the C2 input. -/
def c2v10 : Bytes :=
  [108, 227, 254, 216, 148, 195, 18, 165, 91, 244, 225, 162, 149, 188, 218,
   47, 121, 235, 75, 200, 87, 69, 73, 10, 44, 101, 47, 206, 35, 69, 86, 59].map byteOf

/-- Hash-chain value after step 10 of `verifyProof` on the C2 input. -/
def c2v11 : Bytes :=
  [35, 19, 223, 166, 178, 55, 166, 51, 159, 16, 151, 142, 63, 234, 159, 95,
   119, 249, 186, 192, 176, 123, 178, 191, 19, 48, 30, 91, 53, 146, 193, 227].map byteOf

/-- Hash-chain value after step 11 of `verifyProof` on the C2 input. -/
def c2v12 : Bytes :=
  [28, 93, 98, 82, 252, 50, 62, 218, 83, 202, 225, 135, 45, 115, 193, 14,
   20, 13, 180, 238, 246, 0, 204, 118, 247, 149, 46, 49, 33, 185, 196, 75].map byteOf

/-- Hash-chain value after step 12 of `verifyProof` on the C2 input. -/
def c2v13 : Bytes :=
  [208, 164, 33, 25, 57, 201, 220, 108, 219, 11, 106, 67, 11, 53, 176, 228,
   230, 222, 245, 203, 48, 227, 128, 195, 119, 155, 41, 110, 148, 121, 61,
   57].map byteOf

/-- Hash-chain value after step 13 of `verifyProof` on the C2 input. -/
def c2v14 : Bytes :=
  [216, 125, 193, 172, 25, 24, 22, 34, 33, 211, 118, 47, 238, 153, 50, 179,
   2, 5, 194, 54, 82, 240, 87, 246, 176, 151, 53, 8, 148, 198, 121, 32].map byteOf

/-- Hash-chain value after step 14 of `verifyProof` on the C2 input. -/
def c2v15 : Bytes :=
  [102, 5, 199, 158, 234, 187, 41, 175, 206, 240, 126, 88, 7, 200, 75, 159,
   169, 88, 134, 233, 131, 172, 231, 202, 206, 211, 44, 166, 128, 250, 40,
   48].map byteOf

/-- Hash-chain value after step 15 of `verifyProof` on the C2 input. -/
def c2v16 : Bytes :=
  [77, 27, 142, 59, 87, 2, 147, 229, 117, 169, 173, 235, 75, 71, 153, 42,
   22, 167, 241, 52, 46, 54, 3, 49, 35, 24, 83, 102, 43, 140, 146, 175].map byteOf

/-- Hash-chain value after step 16 of `verifyProof` on the C2 input. -/
def c2v17 : Bytes :=
  [107, 2, 119, 16, 9, 194, 113, 68, 88, 139, 170, 207, 117, 203, 164, 109,
   177, 88, 120, 53, 141, 45, 80, 180, 246, 108, 37, 66, 75, 55, 126, 89].map byteOf

/-- Hash-chain value after step 17 of `verifyProof` on the C2 input. -/
def c2v18 : Bytes :=
  [108, 221, 193, 49, 173, 44, 174, 134, 98, 231, 144, 234, 199, 199, 82,
   143, 126, 179, 232, 200, 151, 114, 247, 96, 203, 37, 161, 233, 132, 220,
   44, 154].map byteOf

/-- Hash-chain value after step 18 of `verifyProof` on the C2 input. -/
def c2v19 : Bytes :=
  [165, 126, 220, 220, 233, 62, 53, 234, 40, 148, 154, 191, 77, 182, 123,
   215, 200, 81, 242, 192, 98, 58, 232, 222, 186, 239, 223, 148, 231, 145,
   30, 133].map byteOf

/-- Hash-chain value after step 19 of `verifyProof` on the C2 input. -/
def c2v20 : Bytes :=
  [74, 58, 144, 80, 220, 155, 92, 230, 136, 238, 205, 66, 74, 14, 171, 133,
   176, 155, 94, 175, 41, 113, 45, 187, 138, 127, 179, 71, 227, 234, 30, 178].map byteOf

/-- Hash-chain value after step 20 of `verifyProof` on the C2 input. -/
def c2v21 : Bytes :=
  [218, 141, 40, 24, 173, 107, 14, 119, 27, 208, 129, 206, 43, 136, 89, 51,
   11, 205, 166, 204, 203, 68, 143, 245, 153, 142, 194, 251, 47, 223, 181,
   71].map byteOf

/-- Hash-chain value after step 21 of `verifyProof` on the C2 input. -/
def c2v22 : Bytes :=
  [61, 188, 168, 35, 97, 3, 32, 60, 217, 83, 198, 160, 236, 199, 111, 23,
   197, 60, 103, 185, 220, 204, 94, 184, 94, 43, 91, 94, 136, 32, 199, 92].map byteOf

/-- Hash-chain value after step 22 of `verifyProof` on the C2 input. -/
def c2v23 : Bytes :=
  [243, 19, 51, 40, 59, 67, 180, 139, 130, 17, 197, 149, 251, 33, 3, 192,
   152, 107, 236, 219, 173, 62, 155, 220, 4, 4, 142, 177, 46, 83, 183, 165].map byteOf

/-- Hash-chain value after step 23 of `verifyProof` on the C2 input. -/
def c2v24 : Bytes :=
  [129, 185, 175, 74, 21, 216, 22, 133, 101, 75, 23, 118, 142, 61, 118, 59,
   139, 131, 254, 80, 124, 234, 182, 169, 108, 163, 193, 152, 216, 6, 233,
   207].map byteOf

/-- Hash-chain value after step 24 of `verifyProof` on the C2 input. -/
def c2v25 : Bytes :=
  [5, 116, 132, 55, 247, 69, 163, 4, 157, 230, 7, 3, 172, 28, 207, 49, 165,
   231, 169, 47, 17, 194, 94, 197, 137, 6, 2, 68, 245, 15, 144, 173].map byteOf

/-- Hash-chain value after step 25 of `verifyProof` on the C2 input. -/
def c2v26 : Bytes :=
  [95, 40, 238, 51, 130, 74, 104, 5, 164, 223, 246, 203, 189, 83, 2, 114,
   51, 76, 50, 96, 97, 47, 92, 72, 57, 222, 28, 223, 204, 222, 210, 20].map byteOf

/-- Hash-chain value after step 26 of `verifyProof` on the C2 input. -/
def c2v27 : Bytes :=
  [200, 113, 65, 237, 95, 194, 3, 97, 6, 75, 30, 5, 168, 109, 252, 234, 59,
   113, 75, 8, 53, 235, 64, 194, 194, 14, 205, 224, 105, 150, 183, 95].map byteOf

/-- Hash-chain value after step 27 of `verifyProof` on the C2 input. -/
def c2v28 : Bytes :=
  [172, 246, 196, 215, 133, 62, 173, 198, 255, 145, 56, 75, 56, 80, 209, 87,
   189, 186, 240, 246, 201, 196, 174, 141, 115, 131, 165, 82, 10, 126, 210,
   237].map byteOf

/-- Hash-chain value after step 28 of `verifyProof` on the C2 input. -/
def c2v29 : Bytes :=
  [207, 214, 162, 127, 10, 46, 109, 244, 16, 44, 111, 251, 150, 20, 132, 10,
   135, 148, 27, 58, 102, 0, 60, 195, 6, 171, 145, 152, 132, 229, 167, 138].map byteOf

/-- Hash-chain value after step 29 of `verifyProof` on the C2 input. -/
def c2v30 : Bytes :=
  [102, 165, 146, 183, 14, 85, 191, 167, 108, 227, 63, 35, 43, 252, 86, 88,
   83, 204, 87, 6, 176, 137, 160, 48, 250, 57, 61, 134, 43, 78, 172, 70].map byteOf

/-- Hash-chain value after step 30 of `verifyProof` on the C2 input. -/
def c2v31 : Bytes :=
  [232, 103, 124, 120, 54, 143, 176, 96, 69, 79, 28, 97, 196, 235, 38, 68,
   117, 6, 63, 235, 207, 208, 36, 230, 218, 202, 80, 33, 251, 14, 78, 227].map byteOf

/-- Hash-chain value after step 31 of `verifyProof` on the C2 input. -/
def c2v32 : Bytes :=
  [181, 130, 18, 19, 50, 143, 251, 41, 129, 136, 219, 158, 39, 18, 181, 78,
   170, 121, 208, 19, 34, 163, 126, 143, 67, 81, 68, 119, 247, 105, 205, 98].map byteOf

/-- The root the source's hash chain computes on the C2 input (leaf index 1):
at level 32 the code hashes sibling ‖ current because `1 << 32` is `1`. -/
def c2Root : Bytes :=
  [120, 164, 112, 168, 207, 124, 41, 6, 41, 90, 140, 186, 79, 192, 98, 181,
   245, 29, 92, 236, 110, 52, 150, 0, 196, 41, 116, 221, 56, 44, 201, 9].map byteOf

/-- The root of the reconstruction claim C2 describes on the C2 input: at
level 32 bit 32 of the leaf index is clear, so it hashes current ‖ sibling. -/
def c2ClaimRoot : Bytes :=
  [94, 103, 206, 192, 151, 138, 133, 66, 225, 154, 142, 174, 61, 126, 13,
   66, 24, 154, 69, 232, 122, 37, 237, 87, 29, 130, 140, 13, 107, 68, 58,
   251].map byteOf

/-- The first admitted voter key of the C1 counterexample. -/
def c1Voter1 : Bytes := List.replicate 32 (byteOf 1)

/-- The second admitted voter key of the C1 counterexample. -/
def c1Voter2 : Bytes := List.replicate 32 (byteOf 2)

/-- The election key of the C1 counterexample. -/
def c1Election : Bytes := List.replicate 32 (byteOf 3)

/-- The attestation key of the C1 counterexample. -/
def c1Attestation : Bytes := List.replicate 32 (byteOf 4)

/-- Two admitted voter leaves, derived exactly as the SDK derives them. -/
def c1Leaves : List Bytes :=
  [Compression.createCompressedVoterLeaf c1Voter1 c1Election c1Attestation 0,
   Compression.createCompressedVoterLeaf c1Voter2 c1Election c1Attestation 0]

namespace Gov

/-- Modelled from the spec: the election lifecycle states of §4.1.  The
on-chain program (`programs/mpl-gov-micro/src`, per the build docs) is not
part of this repository snapshot, so §§3-4 of the spec are the authority
for this state machine. -/
inductive ElectionStatus
  | Pending
  | Active
  | Ended
  | Cancelled
  deriving DecidableEq

/-- Modelled from the spec: the typed error kinds of §7. -/
inductive GovError
  | TooManyCandidates
  | InvalidTimeRange
  | Unauthorized
  | AlreadyClosed
  | ElectionNotStarted
  | ElectionEnded
  | InvalidChoice
  | InvalidMerkleProof
  | NotRegistered
  | AlreadyVoted
  | InvalidAttestation
  | ExpiredAttestation
  | AttestationMismatch
  | DuplicateRegistration
  | CapacityExceeded
  deriving DecidableEq

/-- Modelled from the spec: an externally issued attestation (§3), read-only
for this core — subject, external reference, expiry. -/
structure Attestation where
  subject : Bytes
  ref : Bytes
  expiresAt : Int
  deriving DecidableEq

/-- Modelled from the spec: the Election record of §3, owning the tally
counters, the accumulator snapshot and the nullifier registry scoped to it. -/
structure Election where
  authority : Bytes
  electionRef : Bytes
  candidates : List String
  voteCounts : List Nat
  totalVotes : Nat
  startTime : Int
  endTime : Int
  status : ElectionStatus
  root : Bytes
  leaves : List Bytes
  admittedCount : Nat
  capacity : Nat
  useCompression : Bool
  registered : List Bytes
  nullifiers : List Bytes
  deriving DecidableEq

/-- Modelled from the spec: eligibility evidence (§9) — a membership proof
in compressed mode, or the discrete admission record in legacy mode. -/
inductive EligibilityEvidence
  | membershipProof (leaf : Bytes) (index : Nat) (siblings : List Bytes)
  | directRecord
  deriving DecidableEq

/-- Modelled from the spec: one vote attempt of §4.5. -/
structure VoteEntry where
  wallet : Bytes
  choice : Nat
  evidence : EligibilityEvidence
  deriving DecidableEq

/-- Modelled from the spec: `create` (§4.1) — validates candidate count and
labels, the time range and the capacity; initializes tallies to zero, the
accumulator to the canonical empty root (the repository accumulator's empty
root), and the status from the sampled clock. -/
def createElection (now : Int) (authority electionRef : Bytes)
    (candidates : List String) (startTime endTime : Int)
    (useCompression : Bool) (capacity : Nat) : Except GovError Election :=
  if candidates.length < 1 ∨ candidates.length > 10 then
    .error .TooManyCandidates
  else if candidates.any (fun c => decide (c.length = 0 ∨ 32 < c.length)) then
    .error .TooManyCandidates
  else if endTime ≤ startTime then .error .InvalidTimeRange
  else if capacity = 0 then .error .CapacityExceeded
  else
    .ok
      { authority := authority
        electionRef := electionRef
        candidates := candidates
        voteCounts := List.replicate candidates.length 0
        totalVotes := 0
        startTime := startTime
        endTime := endTime
        status := if startTime ≤ now then .Active else .Pending
        root := Compression.getRoot []
        leaves := []
        admittedCount := 0
        capacity := capacity
        useCompression := useCompression
        registered := []
        nullifiers := [] }

/-- Modelled from the spec: `admit`/`registerVoter` (§4.2, §6) — validates
the attestation, the mandatory duplicate-admission guard and the capacity;
appends the derived leaf to the accumulator (the repository's
`SimpleMerkleTree`) and republishes its root. -/
def registerVoter (now : Int) (e : Election) (wallet : Bytes)
    (att : Attestation) (registeredAt : Int) : Except GovError Election :=
  if att.subject ≠ wallet then .error .AttestationMismatch
  else if att.expiresAt ≤ now then .error .ExpiredAttestation
  else if wallet ∈ e.registered then .error .DuplicateRegistration
  else if e.capacity ≤ e.admittedCount then .error .CapacityExceeded
  else
    let leaf := Compression.createCompressedVoterLeaf wallet e.electionRef
      att.ref registeredAt
    let leaves := Compression.addLeaf e.leaves leaf
    .ok { e with
      leaves := leaves
      root := Compression.getRoot leaves
      admittedCount := e.admittedCount + 1
      registered := wallet :: e.registered }

/-- Modelled from the spec: whether the eligibility evidence verifies (§4.4)
— a valid membership proof against the published root in compressed mode,
a discrete admission record in legacy mode. -/
def evidenceValid (e : Election) (v : VoteEntry) : Bool :=
  if e.useCompression then
    match v.evidence with
    | .membershipProof leaf index siblings =>
        Compression.verifyProof leaf siblings index e.root
    | .directRecord => false
  else decide (v.wallet ∈ e.registered)

/-- Modelled from the spec: `castVote` (§4.4) — status/time window, choice
bound, eligibility evidence and nullifier preconditions in order; on
success the atomic effect: chosen counter + 1, total + 1, nullifier
inserted (derived as in §4.3 via the SDK's `createNullifier`, nonce 0). -/
def castVote (now : Int) (e : Election) (v : VoteEntry) :
    Except GovError Election :=
  if e.status = .Ended ∨ e.status = .Cancelled then .error .ElectionEnded
  else if now < e.startTime then .error .ElectionNotStarted
  else if e.endTime ≤ now then .error .ElectionEnded
  else if e.candidates.length ≤ v.choice then .error .InvalidChoice
  else if evidenceValid e v = false then
    .error (if e.useCompression then .InvalidMerkleProof else .NotRegistered)
  else if Compression.createNullifier v.wallet e.electionRef 0 ∈
      e.nullifiers then .error .AlreadyVoted
  else
    .ok { e with
      voteCounts := e.voteCounts.set v.choice
        (e.voteCounts.getD v.choice 0 + 1)
      totalVotes := e.totalVotes + 1
      nullifiers := Compression.createNullifier v.wallet e.electionRef 0 ::
        e.nullifiers }

/-- Modelled from the spec: `castBatch` (§4.5) — processes entries in order
as one atomic unit; the first failing entry's error rejects the whole
batch, and only a fully successful batch produces a committed state. -/
def castBatch (now : Int) : Election → List VoteEntry →
    Except GovError Election
  | e, [] => .ok e
  | e, v :: rest =>
      match castVote now e v with
      | .error err => .error err
      | .ok e2 => castBatch now e2 rest

/-- Modelled from the spec: the state a caller holds after a batch — the
new state if the batch committed, the untouched prior state if the batch
was rejected. -/
def castBatchCommitted (now : Int) (e : Election)
    (entries : List VoteEntry) : Election :=
  match castBatch now e entries with
  | .ok e2 => e2
  | .error _ => e

/-- Modelled from the spec: `close` (§4.1) — authority-only, rejects a
second close, forces `Ended`, changes no other field. -/
def closeElection (e : Election) (caller : Bytes) :
    Except GovError Election :=
  if caller ≠ e.authority then .error .Unauthorized
  else if e.status = .Ended then .error .AlreadyClosed
  else .ok { e with status := .Ended }

/-- Election states reachable by sequences of the five operations. -/
inductive Reachable : Election → Prop
  | created (now : Int) (authority electionRef : Bytes)
      (candidates : List String) (startTime endTime : Int)
      (useCompression : Bool) (capacity : Nat) (e : Election) :
      createElection now authority electionRef candidates startTime endTime
        useCompression capacity = .ok e → Reachable e
  | registered (now : Int) (e : Election) (wallet : Bytes)
      (att : Attestation) (registeredAt : Int) (e2 : Election) :
      Reachable e → registerVoter now e wallet att registeredAt = .ok e2 →
      Reachable e2
  | voted (now : Int) (e : Election) (v : VoteEntry) (e2 : Election) :
      Reachable e → castVote now e v = .ok e2 → Reachable e2
  | batched (now : Int) (e : Election) (entries : List VoteEntry)
      (e2 : Election) :
      Reachable e → castBatch now e entries = .ok e2 → Reachable e2
  | closed (e : Election) (caller : Bytes) (e2 : Election) :
      Reachable e → closeElection e caller = .ok e2 → Reachable e2

/-- The §3 record invariant: counters sum to the aggregate and stay in
bijection with the candidate list. -/
def TallyInvariant (e : Election) : Prop :=
  e.voteCounts.sum = e.totalVotes ∧
  e.voteCounts.length = e.candidates.length

end Gov

/-- A concrete voter wallet for the governance witnesses. -/
def govWallet : Bytes := List.replicate 32 (byteOf 7)

/-- A concrete election authority for the governance witnesses. -/
def govAuthority : Bytes := List.replicate 32 (byteOf 8)

/-- A concrete election reference for the governance witnesses. -/
def govElectionRef : Bytes := List.replicate 32 (byteOf 9)

/-- A concrete valid attestation for `govWallet`. -/
def govAttestation : Gov.Attestation :=
  ⟨govWallet, List.replicate 32 (byteOf 10), 1000⟩

/-- A fallback election record (never reached in the witnesses). -/
def govFallback : Gov.Election :=
  { authority := []
    electionRef := []
    candidates := []
    voteCounts := []
    totalVotes := 0
    startTime := 0
    endTime := 0
    status := .Cancelled
    root := []
    leaves := []
    admittedCount := 0
    capacity := 0
    useCompression := false
    registered := []
    nullifiers := [] }

/-- The concrete election right after creation. -/
def govE0 : Gov.Election :=
  (Gov.createElection 0 govAuthority govElectionRef ["Alice", "Bob"] 0 100
    false 10).toOption.getD govFallback

/-- The concrete election after registering `govWallet`. -/
def govE1 : Gov.Election :=
  (Gov.registerVoter 0 govE0 govWallet govAttestation 0).toOption.getD
    govFallback

/-- The concrete vote entry of the C4 witness. -/
def govEntry : Gov.VoteEntry := ⟨govWallet, 0, .directRecord⟩

/-- The concrete election after `govWallet` votes. -/
def govE2 : Gov.Election :=
  (Gov.castVote 5 govE1 govEntry).toOption.getD govFallback

/-- Wallet 1 of the C5 witness batch. -/
def govW1 : Bytes := List.replicate 32 (byteOf 11)

/-- Wallet 2 of the C5 witness batch. -/
def govW2 : Bytes := List.replicate 32 (byteOf 12)

/-- Wallet 3 of the C5 witness batch. -/
def govW3 : Bytes := List.replicate 32 (byteOf 13)

/-- A concrete active legacy-mode election with three registered wallets. -/
def govBatchElection : Gov.Election :=
  { authority := govAuthority
    electionRef := govElectionRef
    candidates := ["Alice", "Bob"]
    voteCounts := [0, 0]
    totalVotes := 0
    startTime := 0
    endTime := 100
    status := .Active
    root := Compression.getRoot []
    leaves := []
    admittedCount := 3
    capacity := 10
    useCompression := false
    registered := [govW1, govW2, govW3]
    nullifiers := [] }

/-- Three valid votes, then a fourth reusing the first wallet's nullifier. -/
def govBatch : List Gov.VoteEntry :=
  [⟨govW1, 0, .directRecord⟩, ⟨govW2, 1, .directRecord⟩,
   ⟨govW3, 0, .directRecord⟩, ⟨govW1, 1, .directRecord⟩]

/-- The round-constant literals agree with the LFSR generator. -/
theorem roundConstants_generated :
    Keccak.roundConstants = (List.range 24).map Keccak.roundConstGen := by decide

/-- The rotation offsets inlined in `rhoPi` agree, lane by lane, with the
rho/pi-walk generator. -/
theorem rotOffsets_generated :
    Keccak.rotOffsetGen 0 0 = 0 ∧
    Keccak.rotOffsetGen 1 0 = 1 ∧
    Keccak.rotOffsetGen 2 0 = 62 ∧
    Keccak.rotOffsetGen 3 0 = 28 ∧
    Keccak.rotOffsetGen 4 0 = 27 ∧
    Keccak.rotOffsetGen 0 1 = 36 ∧
    Keccak.rotOffsetGen 1 1 = 44 ∧
    Keccak.rotOffsetGen 2 1 = 6 ∧
    Keccak.rotOffsetGen 3 1 = 55 ∧
    Keccak.rotOffsetGen 4 1 = 20 ∧
    Keccak.rotOffsetGen 0 2 = 3 ∧
    Keccak.rotOffsetGen 1 2 = 10 ∧
    Keccak.rotOffsetGen 2 2 = 43 ∧
    Keccak.rotOffsetGen 3 2 = 25 ∧
    Keccak.rotOffsetGen 4 2 = 39 ∧
    Keccak.rotOffsetGen 0 3 = 41 ∧
    Keccak.rotOffsetGen 1 3 = 45 ∧
    Keccak.rotOffsetGen 2 3 = 15 ∧
    Keccak.rotOffsetGen 3 3 = 21 ∧
    Keccak.rotOffsetGen 4 3 = 8 ∧
    Keccak.rotOffsetGen 0 4 = 18 ∧
    Keccak.rotOffsetGen 1 4 = 2 ∧
    Keccak.rotOffsetGen 2 4 = 61 ∧
    Keccak.rotOffsetGen 3 4 = 56 ∧
    Keccak.rotOffsetGen 4 4 = 14 := by
  decide

set_option maxRecDepth 10000 in
/-- Known-answer check: Keccak-256 of the empty message. -/
theorem keccak256_empty_vector :
    keccak_256 [] =
      [197, 210, 70, 1, 134, 247, 35, 60, 146, 126, 125, 178, 220, 199, 3, 192,
       229, 0, 182, 83, 202, 130, 39, 59, 123, 250, 216, 4, 93, 133, 164,
       112].map byteOf := by
  decide

set_option maxRecDepth 10000 in
/-- Known-answer check: Keccak-256 of the ASCII string `abc`. -/
theorem keccak256_abc_vector :
    keccak_256 ([97, 98, 99].map byteOf) =
      [78, 3, 101, 122, 234, 69, 169, 79, 199, 212, 123, 168, 38, 200, 214,
       103, 192, 209, 230, 227, 58, 100, 160, 54, 236, 68, 245, 143, 161, 45,
       108, 69].map byteOf := by
  decide

/-- Helper: `getD` at the length of the prefix picks the appended element. -/
theorem getD_concat_length (l : List Bytes) (x : Bytes) :
    (l ++ [x]).getD l.length [] = x := by
  induction l with
  | nil => rfl
  | cons a t ih => simpa only [List.cons_append, List.length_cons,
      List.getD_cons_succ] using ih

/-- Helper: the root of a nonempty tree is whatever leaf was added last. -/
theorem getRoot_concat (leaves : List Bytes) (leaf : Bytes) :
    Compression.getRoot (leaves ++ [leaf]) = leaf := by
  rcases leaves with _ | ⟨a, t⟩
  · rfl
  · have h2 : ((a :: t) ++ [leaf]).length = t.length + 2 := by simp
    unfold Compression.getRoot
    rw [h2, if_neg (by omega), if_neg (by omega)]
    have h3 : t.length + 2 - 1 = (a :: t).length := by simp
    rw [h3, getD_concat_length]

/-- C9: `SimpleMerkleTree.getRoot` is the 32-byte all-zero buffer on an empty
tree and, on any nonempty tree, exactly the most recently added leaf — hence
for two or more leaves it combines nothing and depends on no leaf but the
last one added. -/
theorem getRoot_is_last_leaf :
    Compression.getRoot [] = List.replicate 32 (byteOf 0) ∧
    ∀ (leaves : List Bytes) (leaf : Bytes),
      Compression.getRoot (Compression.addLeaf leaves leaf) = leaf :=
  ⟨rfl, fun leaves leaf => getRoot_concat leaves leaf⟩

/-- C10: `SimpleMerkleTree.getProof` returns the empty proof for every leaf
index, whatever the tree holds. -/
theorem getProof_always_empty :
    ∀ (leaves : List Bytes) (leafIndex : Nat),
      Compression.getProof leaves leafIndex = [] :=
  fun _ _ => rfl

/-- C7: `getMerkleTreeSize` picks depth 10 up to 1024 voters, 12 up to 4096,
14 up to 16384, and 20 beyond, with buffer size 64 on the first three tiers
and 256 on the last. -/
theorem getMerkleTreeSize_tiers :
    ∀ m : Int,
      (m ≤ 1024 → Compression.getMerkleTreeSize m = (10, 64)) ∧
      (1024 < m → m ≤ 4096 → Compression.getMerkleTreeSize m = (12, 64)) ∧
      (4096 < m → m ≤ 16384 → Compression.getMerkleTreeSize m = (14, 64)) ∧
      (16384 < m → Compression.getMerkleTreeSize m = (20, 256)) := by
  intro m
  refine ⟨?_, ?_, ?_, ?_⟩ <;> intros <;> unfold Compression.getMerkleTreeSize <;>
    split_ifs <;> first | rfl | omega

/-- Witness for C7 at a concrete voter ceiling in the second tier. -/
theorem getMerkleTreeSize_tiers_witness :
    Compression.getMerkleTreeSize 2048 = (12, 64) :=
  (getMerkleTreeSize_tiers 2048).2.1 (by decide) (by decide)

/-- One unfolding step of the `verifyProof` hash chain. -/
theorem proofFold_cons (current sibling : Bytes) (rest : List Bytes)
    (leafIndex i : Nat) :
    Compression.proofFold current (sibling :: rest) leafIndex i =
      if Nat.testBit leafIndex (i % 32) then
        Compression.proofFold (keccak_256 (sibling ++ current)) rest leafIndex
          (i + 1)
      else
        Compression.proofFold (keccak_256 (current ++ sibling)) rest leafIndex
          (i + 1) := rfl

/-- One unfolding step of the claim's reconstruction chain. -/
theorem claimFold_cons (current sibling : Bytes) (rest : List Bytes)
    (leafIndex i : Nat) :
    claimFold current (sibling :: rest) leafIndex i =
      if Nat.testBit leafIndex i then
        claimFold (keccak_256 (sibling ++ current)) rest leafIndex (i + 1)
      else
        claimFold (keccak_256 (current ++ sibling)) rest leafIndex (i + 1) :=
  rfl

set_option maxRecDepth 10000 in
/-- Step 0 of the C2 hash chain (bit 0 of the index is set). -/
theorem c2Hash0 : keccak_256 (c2Sib ++ c2Leaf) = c2v1 := by decide

set_option maxRecDepth 10000 in
/-- Step 1 of the C2 hash chain (bit 1 of the index is clear). -/
theorem c2Hash1 : keccak_256 (c2v1 ++ c2Sib) = c2v2 := by decide

set_option maxRecDepth 10000 in
/-- Step 2 of the C2 hash chain (bit 2 of the index is clear). -/
theorem c2Hash2 : keccak_256 (c2v2 ++ c2Sib) = c2v3 := by decide

set_option maxRecDepth 10000 in
/-- Step 3 of the C2 hash chain (bit 3 of the index is clear). -/
theorem c2Hash3 : keccak_256 (c2v3 ++ c2Sib) = c2v4 := by decide

set_option maxRecDepth 10000 in
/-- Step 4 of the C2 hash chain (bit 4 of the index is clear). -/
theorem c2Hash4 : keccak_256 (c2v4 ++ c2Sib) = c2v5 := by decide

set_option maxRecDepth 10000 in
/-- Step 5 of the C2 hash chain (bit 5 of the index is clear). -/
theorem c2Hash5 : keccak_256 (c2v5 ++ c2Sib) = c2v6 := by decide

set_option maxRecDepth 10000 in
/-- Step 6 of the C2 hash chain (bit 6 of the index is clear). -/
theorem c2Hash6 : keccak_256 (c2v6 ++ c2Sib) = c2v7 := by decide

set_option maxRecDepth 10000 in
/-- Step 7 of the C2 hash chain (bit 7 of the index is clear). -/
theorem c2Hash7 : keccak_256 (c2v7 ++ c2Sib) = c2v8 := by decide

set_option maxRecDepth 10000 in
/-- Step 8 of the C2 hash chain (bit 8 of the index is clear). -/
theorem c2Hash8 : keccak_256 (c2v8 ++ c2Sib) = c2v9 := by decide

set_option maxRecDepth 10000 in
/-- Step 9 of the C2 hash chain (bit 9 of the index is clear). -/
theorem c2Hash9 : keccak_256 (c2v9 ++ c2Sib) = c2v10 := by decide

set_option maxRecDepth 10000 in
/-- Step 10 of the C2 hash chain (bit 10 of the index is clear). -/
theorem c2Hash10 : keccak_256 (c2v10 ++ c2Sib) = c2v11 := by decide

set_option maxRecDepth 10000 in
/-- Step 11 of the C2 hash chain (bit 11 of the index is clear). -/
theorem c2Hash11 : keccak_256 (c2v11 ++ c2Sib) = c2v12 := by decide

set_option maxRecDepth 10000 in
/-- Step 12 of the C2 hash chain (bit 12 of the index is clear). -/
theorem c2Hash12 : keccak_256 (c2v12 ++ c2Sib) = c2v13 := by decide

set_option maxRecDepth 10000 in
/-- Step 13 of the C2 hash chain (bit 13 of the index is clear). -/
theorem c2Hash13 : keccak_256 (c2v13 ++ c2Sib) = c2v14 := by decide

set_option maxRecDepth 10000 in
/-- Step 14 of the C2 hash chain (bit 14 of the index is clear). -/
theorem c2Hash14 : keccak_256 (c2v14 ++ c2Sib) = c2v15 := by decide

set_option maxRecDepth 10000 in
/-- Step 15 of the C2 hash chain (bit 15 of the index is clear). -/
theorem c2Hash15 : keccak_256 (c2v15 ++ c2Sib) = c2v16 := by decide

set_option maxRecDepth 10000 in
/-- Step 16 of the C2 hash chain (bit 16 of the index is clear). -/
theorem c2Hash16 : keccak_256 (c2v16 ++ c2Sib) = c2v17 := by decide

set_option maxRecDepth 10000 in
/-- Step 17 of the C2 hash chain (bit 17 of the index is clear). -/
theorem c2Hash17 : keccak_256 (c2v17 ++ c2Sib) = c2v18 := by decide

set_option maxRecDepth 10000 in
/-- Step 18 of the C2 hash chain (bit 18 of the index is clear). -/
theorem c2Hash18 : keccak_256 (c2v18 ++ c2Sib) = c2v19 := by decide

set_option maxRecDepth 10000 in
/-- Step 19 of the C2 hash chain (bit 19 of the index is clear). -/
theorem c2Hash19 : keccak_256 (c2v19 ++ c2Sib) = c2v20 := by decide

set_option maxRecDepth 10000 in
/-- Step 20 of the C2 hash chain (bit 20 of the index is clear). -/
theorem c2Hash20 : keccak_256 (c2v20 ++ c2Sib) = c2v21 := by decide

set_option maxRecDepth 10000 in
/-- Step 21 of the C2 hash chain (bit 21 of the index is clear). -/
theorem c2Hash21 : keccak_256 (c2v21 ++ c2Sib) = c2v22 := by decide

set_option maxRecDepth 10000 in
/-- Step 22 of the C2 hash chain (bit 22 of the index is clear). -/
theorem c2Hash22 : keccak_256 (c2v22 ++ c2Sib) = c2v23 := by decide

set_option maxRecDepth 10000 in
/-- Step 23 of the C2 hash chain (bit 23 of the index is clear). -/
theorem c2Hash23 : keccak_256 (c2v23 ++ c2Sib) = c2v24 := by decide

set_option maxRecDepth 10000 in
/-- Step 24 of the C2 hash chain (bit 24 of the index is clear). -/
theorem c2Hash24 : keccak_256 (c2v24 ++ c2Sib) = c2v25 := by decide

set_option maxRecDepth 10000 in
/-- Step 25 of the C2 hash chain (bit 25 of the index is clear). -/
theorem c2Hash25 : keccak_256 (c2v25 ++ c2Sib) = c2v26 := by decide

set_option maxRecDepth 10000 in
/-- Step 26 of the C2 hash chain (bit 26 of the index is clear). -/
theorem c2Hash26 : keccak_256 (c2v26 ++ c2Sib) = c2v27 := by decide

set_option maxRecDepth 10000 in
/-- Step 27 of the C2 hash chain (bit 27 of the index is clear). -/
theorem c2Hash27 : keccak_256 (c2v27 ++ c2Sib) = c2v28 := by decide

set_option maxRecDepth 10000 in
/-- Step 28 of the C2 hash chain (bit 28 of the index is clear). -/
theorem c2Hash28 : keccak_256 (c2v28 ++ c2Sib) = c2v29 := by decide

set_option maxRecDepth 10000 in
/-- Step 29 of the C2 hash chain (bit 29 of the index is clear). -/
theorem c2Hash29 : keccak_256 (c2v29 ++ c2Sib) = c2v30 := by decide

set_option maxRecDepth 10000 in
/-- Step 30 of the C2 hash chain (bit 30 of the index is clear). -/
theorem c2Hash30 : keccak_256 (c2v30 ++ c2Sib) = c2v31 := by decide

set_option maxRecDepth 10000 in
/-- Step 31 of the C2 hash chain (bit 31 of the index is clear). -/
theorem c2Hash31 : keccak_256 (c2v31 ++ c2Sib) = c2v32 := by decide

set_option maxRecDepth 10000 in
/-- Step 32 as the source computes it: `1 << 32` wraps to bit 0, set. -/
theorem c2Hash32 : keccak_256 (c2Sib ++ c2v32) = c2Root := by decide

set_option maxRecDepth 10000 in
/-- Step 32 as the claim describes it: bit 32 of the index, clear. -/
theorem c2Hash32claim : keccak_256 (c2v32 ++ c2Sib) = c2ClaimRoot := by decide

/-- The exhausted hash chain of `verifyProof` on the C2 input. -/
theorem c2FoldJs33 :
    Compression.proofFold c2Root (List.replicate 0 c2Sib) 1 33 = c2Root := rfl

/-- The hash chain of `verifyProof` on the C2 input from step 32 on. -/
theorem c2FoldJs32 :
    Compression.proofFold c2v32 (List.replicate 1 c2Sib) 1 32 = c2Root := by
  show Compression.proofFold c2v32 (c2Sib :: List.replicate 0 c2Sib) 1 32 =
    c2Root
  have hb : Nat.testBit 1 (32 % 32) = true := by decide
  rw [proofFold_cons, if_pos hb, c2Hash32]
  exact c2FoldJs33

/-- The hash chain of `verifyProof` on the C2 input from step 31 on. -/
theorem c2FoldJs31 :
    Compression.proofFold c2v31 (List.replicate 2 c2Sib) 1 31 = c2Root := by
  show Compression.proofFold c2v31 (c2Sib :: List.replicate 1 c2Sib) 1 31 =
    c2Root
  have hb : ¬ (Nat.testBit 1 (31 % 32) = true) := by decide
  rw [proofFold_cons, if_neg hb, c2Hash31]
  exact c2FoldJs32

/-- The hash chain of `verifyProof` on the C2 input from step 30 on. -/
theorem c2FoldJs30 :
    Compression.proofFold c2v30 (List.replicate 3 c2Sib) 1 30 = c2Root := by
  show Compression.proofFold c2v30 (c2Sib :: List.replicate 2 c2Sib) 1 30 =
    c2Root
  have hb : ¬ (Nat.testBit 1 (30 % 32) = true) := by decide
  rw [proofFold_cons, if_neg hb, c2Hash30]
  exact c2FoldJs31

/-- The hash chain of `verifyProof` on the C2 input from step 29 on. -/
theorem c2FoldJs29 :
    Compression.proofFold c2v29 (List.replicate 4 c2Sib) 1 29 = c2Root := by
  show Compression.proofFold c2v29 (c2Sib :: List.replicate 3 c2Sib) 1 29 =
    c2Root
  have hb : ¬ (Nat.testBit 1 (29 % 32) = true) := by decide
  rw [proofFold_cons, if_neg hb, c2Hash29]
  exact c2FoldJs30

/-- The hash chain of `verifyProof` on the C2 input from step 28 on. -/
theorem c2FoldJs28 :
    Compression.proofFold c2v28 (List.replicate 5 c2Sib) 1 28 = c2Root := by
  show Compression.proofFold c2v28 (c2Sib :: List.replicate 4 c2Sib) 1 28 =
    c2Root
  have hb : ¬ (Nat.testBit 1 (28 % 32) = true) := by decide
  rw [proofFold_cons, if_neg hb, c2Hash28]
  exact c2FoldJs29

/-- The hash chain of `verifyProof` on the C2 input from step 27 on. -/
theorem c2FoldJs27 :
    Compression.proofFold c2v27 (List.replicate 6 c2Sib) 1 27 = c2Root := by
  show Compression.proofFold c2v27 (c2Sib :: List.replicate 5 c2Sib) 1 27 =
    c2Root
  have hb : ¬ (Nat.testBit 1 (27 % 32) = true) := by decide
  rw [proofFold_cons, if_neg hb, c2Hash27]
  exact c2FoldJs28

/-- The hash chain of `verifyProof` on the C2 input from step 26 on. -/
theorem c2FoldJs26 :
    Compression.proofFold c2v26 (List.replicate 7 c2Sib) 1 26 = c2Root := by
  show Compression.proofFold c2v26 (c2Sib :: List.replicate 6 c2Sib) 1 26 =
    c2Root
  have hb : ¬ (Nat.testBit 1 (26 % 32) = true) := by decide
  rw [proofFold_cons, if_neg hb, c2Hash26]
  exact c2FoldJs27

/-- The hash chain of `verifyProof` on the C2 input from step 25 on. -/
theorem c2FoldJs25 :
    Compression.proofFold c2v25 (List.replicate 8 c2Sib) 1 25 = c2Root := by
  show Compression.proofFold c2v25 (c2Sib :: List.replicate 7 c2Sib) 1 25 =
    c2Root
  have hb : ¬ (Nat.testBit 1 (25 % 32) = true) := by decide
  rw [proofFold_cons, if_neg hb, c2Hash25]
  exact c2FoldJs26

/-- The hash chain of `verifyProof` on the C2 input from step 24 on. -/
theorem c2FoldJs24 :
    Compression.proofFold c2v24 (List.replicate 9 c2Sib) 1 24 = c2Root := by
  show Compression.proofFold c2v24 (c2Sib :: List.replicate 8 c2Sib) 1 24 =
    c2Root
  have hb : ¬ (Nat.testBit 1 (24 % 32) = true) := by decide
  rw [proofFold_cons, if_neg hb, c2Hash24]
  exact c2FoldJs25

/-- The hash chain of `verifyProof` on the C2 input from step 23 on. -/
theorem c2FoldJs23 :
    Compression.proofFold c2v23 (List.replicate 10 c2Sib) 1 23 = c2Root := by
  show Compression.proofFold c2v23 (c2Sib :: List.replicate 9 c2Sib) 1 23 =
    c2Root
  have hb : ¬ (Nat.testBit 1 (23 % 32) = true) := by decide
  rw [proofFold_cons, if_neg hb, c2Hash23]
  exact c2FoldJs24

/-- The hash chain of `verifyProof` on the C2 input from step 22 on. -/
theorem c2FoldJs22 :
    Compression.proofFold c2v22 (List.replicate 11 c2Sib) 1 22 = c2Root := by
  show Compression.proofFold c2v22 (c2Sib :: List.replicate 10 c2Sib) 1 22 =
    c2Root
  have hb : ¬ (Nat.testBit 1 (22 % 32) = true) := by decide
  rw [proofFold_cons, if_neg hb, c2Hash22]
  exact c2FoldJs23

/-- The hash chain of `verifyProof` on the C2 input from step 21 on. -/
theorem c2FoldJs21 :
    Compression.proofFold c2v21 (List.replicate 12 c2Sib) 1 21 = c2Root := by
  show Compression.proofFold c2v21 (c2Sib :: List.replicate 11 c2Sib) 1 21 =
    c2Root
  have hb : ¬ (Nat.testBit 1 (21 % 32) = true) := by decide
  rw [proofFold_cons, if_neg hb, c2Hash21]
  exact c2FoldJs22

/-- The hash chain of `verifyProof` on the C2 input from step 20 on. -/
theorem c2FoldJs20 :
    Compression.proofFold c2v20 (List.replicate 13 c2Sib) 1 20 = c2Root := by
  show Compression.proofFold c2v20 (c2Sib :: List.replicate 12 c2Sib) 1 20 =
    c2Root
  have hb : ¬ (Nat.testBit 1 (20 % 32) = true) := by decide
  rw [proofFold_cons, if_neg hb, c2Hash20]
  exact c2FoldJs21

/-- The hash chain of `verifyProof` on the C2 input from step 19 on. -/
theorem c2FoldJs19 :
    Compression.proofFold c2v19 (List.replicate 14 c2Sib) 1 19 = c2Root := by
  show Compression.proofFold c2v19 (c2Sib :: List.replicate 13 c2Sib) 1 19 =
    c2Root
  have hb : ¬ (Nat.testBit 1 (19 % 32) = true) := by decide
  rw [proofFold_cons, if_neg hb, c2Hash19]
  exact c2FoldJs20

/-- The hash chain of `verifyProof` on the C2 input from step 18 on. -/
theorem c2FoldJs18 :
    Compression.proofFold c2v18 (List.replicate 15 c2Sib) 1 18 = c2Root := by
  show Compression.proofFold c2v18 (c2Sib :: List.replicate 14 c2Sib) 1 18 =
    c2Root
  have hb : ¬ (Nat.testBit 1 (18 % 32) = true) := by decide
  rw [proofFold_cons, if_neg hb, c2Hash18]
  exact c2FoldJs19

/-- The hash chain of `verifyProof` on the C2 input from step 17 on. -/
theorem c2FoldJs17 :
    Compression.proofFold c2v17 (List.replicate 16 c2Sib) 1 17 = c2Root := by
  show Compression.proofFold c2v17 (c2Sib :: List.replicate 15 c2Sib) 1 17 =
    c2Root
  have hb : ¬ (Nat.testBit 1 (17 % 32) = true) := by decide
  rw [proofFold_cons, if_neg hb, c2Hash17]
  exact c2FoldJs18

/-- The hash chain of `verifyProof` on the C2 input from step 16 on. -/
theorem c2FoldJs16 :
    Compression.proofFold c2v16 (List.replicate 17 c2Sib) 1 16 = c2Root := by
  show Compression.proofFold c2v16 (c2Sib :: List.replicate 16 c2Sib) 1 16 =
    c2Root
  have hb : ¬ (Nat.testBit 1 (16 % 32) = true) := by decide
  rw [proofFold_cons, if_neg hb, c2Hash16]
  exact c2FoldJs17

/-- The hash chain of `verifyProof` on the C2 input from step 15 on. -/
theorem c2FoldJs15 :
    Compression.proofFold c2v15 (List.replicate 18 c2Sib) 1 15 = c2Root := by
  show Compression.proofFold c2v15 (c2Sib :: List.replicate 17 c2Sib) 1 15 =
    c2Root
  have hb : ¬ (Nat.testBit 1 (15 % 32) = true) := by decide
  rw [proofFold_cons, if_neg hb, c2Hash15]
  exact c2FoldJs16

/-- The hash chain of `verifyProof` on the C2 input from step 14 on. -/
theorem c2FoldJs14 :
    Compression.proofFold c2v14 (List.replicate 19 c2Sib) 1 14 = c2Root := by
  show Compression.proofFold c2v14 (c2Sib :: List.replicate 18 c2Sib) 1 14 =
    c2Root
  have hb : ¬ (Nat.testBit 1 (14 % 32) = true) := by decide
  rw [proofFold_cons, if_neg hb, c2Hash14]
  exact c2FoldJs15

/-- The hash chain of `verifyProof` on the C2 input from step 13 on. -/
theorem c2FoldJs13 :
    Compression.proofFold c2v13 (List.replicate 20 c2Sib) 1 13 = c2Root := by
  show Compression.proofFold c2v13 (c2Sib :: List.replicate 19 c2Sib) 1 13 =
    c2Root
  have hb : ¬ (Nat.testBit 1 (13 % 32) = true) := by decide
  rw [proofFold_cons, if_neg hb, c2Hash13]
  exact c2FoldJs14

/-- The hash chain of `verifyProof` on the C2 input from step 12 on. -/
theorem c2FoldJs12 :
    Compression.proofFold c2v12 (List.replicate 21 c2Sib) 1 12 = c2Root := by
  show Compression.proofFold c2v12 (c2Sib :: List.replicate 20 c2Sib) 1 12 =
    c2Root
  have hb : ¬ (Nat.testBit 1 (12 % 32) = true) := by decide
  rw [proofFold_cons, if_neg hb, c2Hash12]
  exact c2FoldJs13

/-- The hash chain of `verifyProof` on the C2 input from step 11 on. -/
theorem c2FoldJs11 :
    Compression.proofFold c2v11 (List.replicate 22 c2Sib) 1 11 = c2Root := by
  show Compression.proofFold c2v11 (c2Sib :: List.replicate 21 c2Sib) 1 11 =
    c2Root
  have hb : ¬ (Nat.testBit 1 (11 % 32) = true) := by decide
  rw [proofFold_cons, if_neg hb, c2Hash11]
  exact c2FoldJs12

/-- The hash chain of `verifyProof` on the C2 input from step 10 on. -/
theorem c2FoldJs10 :
    Compression.proofFold c2v10 (List.replicate 23 c2Sib) 1 10 = c2Root := by
  show Compression.proofFold c2v10 (c2Sib :: List.replicate 22 c2Sib) 1 10 =
    c2Root
  have hb : ¬ (Nat.testBit 1 (10 % 32) = true) := by decide
  rw [proofFold_cons, if_neg hb, c2Hash10]
  exact c2FoldJs11

/-- The hash chain of `verifyProof` on the C2 input from step 9 on. -/
theorem c2FoldJs9 :
    Compression.proofFold c2v9 (List.replicate 24 c2Sib) 1 9 = c2Root := by
  show Compression.proofFold c2v9 (c2Sib :: List.replicate 23 c2Sib) 1 9 =
    c2Root
  have hb : ¬ (Nat.testBit 1 (9 % 32) = true) := by decide
  rw [proofFold_cons, if_neg hb, c2Hash9]
  exact c2FoldJs10

/-- The hash chain of `verifyProof` on the C2 input from step 8 on. -/
theorem c2FoldJs8 :
    Compression.proofFold c2v8 (List.replicate 25 c2Sib) 1 8 = c2Root := by
  show Compression.proofFold c2v8 (c2Sib :: List.replicate 24 c2Sib) 1 8 =
    c2Root
  have hb : ¬ (Nat.testBit 1 (8 % 32) = true) := by decide
  rw [proofFold_cons, if_neg hb, c2Hash8]
  exact c2FoldJs9

/-- The hash chain of `verifyProof` on the C2 input from step 7 on. -/
theorem c2FoldJs7 :
    Compression.proofFold c2v7 (List.replicate 26 c2Sib) 1 7 = c2Root := by
  show Compression.proofFold c2v7 (c2Sib :: List.replicate 25 c2Sib) 1 7 =
    c2Root
  have hb : ¬ (Nat.testBit 1 (7 % 32) = true) := by decide
  rw [proofFold_cons, if_neg hb, c2Hash7]
  exact c2FoldJs8

/-- The hash chain of `verifyProof` on the C2 input from step 6 on. -/
theorem c2FoldJs6 :
    Compression.proofFold c2v6 (List.replicate 27 c2Sib) 1 6 = c2Root := by
  show Compression.proofFold c2v6 (c2Sib :: List.replicate 26 c2Sib) 1 6 =
    c2Root
  have hb : ¬ (Nat.testBit 1 (6 % 32) = true) := by decide
  rw [proofFold_cons, if_neg hb, c2Hash6]
  exact c2FoldJs7

/-- The hash chain of `verifyProof` on the C2 input from step 5 on. -/
theorem c2FoldJs5 :
    Compression.proofFold c2v5 (List.replicate 28 c2Sib) 1 5 = c2Root := by
  show Compression.proofFold c2v5 (c2Sib :: List.replicate 27 c2Sib) 1 5 =
    c2Root
  have hb : ¬ (Nat.testBit 1 (5 % 32) = true) := by decide
  rw [proofFold_cons, if_neg hb, c2Hash5]
  exact c2FoldJs6

/-- The hash chain of `verifyProof` on the C2 input from step 4 on. -/
theorem c2FoldJs4 :
    Compression.proofFold c2v4 (List.replicate 29 c2Sib) 1 4 = c2Root := by
  show Compression.proofFold c2v4 (c2Sib :: List.replicate 28 c2Sib) 1 4 =
    c2Root
  have hb : ¬ (Nat.testBit 1 (4 % 32) = true) := by decide
  rw [proofFold_cons, if_neg hb, c2Hash4]
  exact c2FoldJs5

/-- The hash chain of `verifyProof` on the C2 input from step 3 on. -/
theorem c2FoldJs3 :
    Compression.proofFold c2v3 (List.replicate 30 c2Sib) 1 3 = c2Root := by
  show Compression.proofFold c2v3 (c2Sib :: List.replicate 29 c2Sib) 1 3 =
    c2Root
  have hb : ¬ (Nat.testBit 1 (3 % 32) = true) := by decide
  rw [proofFold_cons, if_neg hb, c2Hash3]
  exact c2FoldJs4

/-- The hash chain of `verifyProof` on the C2 input from step 2 on. -/
theorem c2FoldJs2 :
    Compression.proofFold c2v2 (List.replicate 31 c2Sib) 1 2 = c2Root := by
  show Compression.proofFold c2v2 (c2Sib :: List.replicate 30 c2Sib) 1 2 =
    c2Root
  have hb : ¬ (Nat.testBit 1 (2 % 32) = true) := by decide
  rw [proofFold_cons, if_neg hb, c2Hash2]
  exact c2FoldJs3

/-- The hash chain of `verifyProof` on the C2 input from step 1 on. -/
theorem c2FoldJs1 :
    Compression.proofFold c2v1 (List.replicate 32 c2Sib) 1 1 = c2Root := by
  show Compression.proofFold c2v1 (c2Sib :: List.replicate 31 c2Sib) 1 1 =
    c2Root
  have hb : ¬ (Nat.testBit 1 (1 % 32) = true) := by decide
  rw [proofFold_cons, if_neg hb, c2Hash1]
  exact c2FoldJs2

/-- The hash chain of `verifyProof` on the C2 input from step 0 on. -/
theorem c2FoldJs0 :
    Compression.proofFold c2Leaf c2Proof 1 0 = c2Root := by
  show Compression.proofFold c2Leaf (c2Sib :: List.replicate 32 c2Sib) 1 0 =
    c2Root
  have hb : Nat.testBit 1 (0 % 32) = true := by decide
  rw [proofFold_cons, if_pos hb, c2Hash0]
  exact c2FoldJs1

/-- The exhausted reconstruction chain of claim C2 on the C2 input. -/
theorem c2FoldClaim33 :
    claimFold c2ClaimRoot (List.replicate 0 c2Sib) 1 33 = c2ClaimRoot := rfl

/-- The claim's reconstruction chain on the C2 input from step 32 on. -/
theorem c2FoldClaim32 :
    claimFold c2v32 (List.replicate 1 c2Sib) 1 32 = c2ClaimRoot := by
  show claimFold c2v32 (c2Sib :: List.replicate 0 c2Sib) 1 32 =
    c2ClaimRoot
  have hb : ¬ (Nat.testBit 1 32 = true) := by decide
  rw [claimFold_cons, if_neg hb, c2Hash32claim]
  exact c2FoldClaim33

/-- The claim's reconstruction chain on the C2 input from step 31 on. -/
theorem c2FoldClaim31 :
    claimFold c2v31 (List.replicate 2 c2Sib) 1 31 = c2ClaimRoot := by
  show claimFold c2v31 (c2Sib :: List.replicate 1 c2Sib) 1 31 =
    c2ClaimRoot
  have hb : ¬ (Nat.testBit 1 31 = true) := by decide
  rw [claimFold_cons, if_neg hb, c2Hash31]
  exact c2FoldClaim32

/-- The claim's reconstruction chain on the C2 input from step 30 on. -/
theorem c2FoldClaim30 :
    claimFold c2v30 (List.replicate 3 c2Sib) 1 30 = c2ClaimRoot := by
  show claimFold c2v30 (c2Sib :: List.replicate 2 c2Sib) 1 30 =
    c2ClaimRoot
  have hb : ¬ (Nat.testBit 1 30 = true) := by decide
  rw [claimFold_cons, if_neg hb, c2Hash30]
  exact c2FoldClaim31

/-- The claim's reconstruction chain on the C2 input from step 29 on. -/
theorem c2FoldClaim29 :
    claimFold c2v29 (List.replicate 4 c2Sib) 1 29 = c2ClaimRoot := by
  show claimFold c2v29 (c2Sib :: List.replicate 3 c2Sib) 1 29 =
    c2ClaimRoot
  have hb : ¬ (Nat.testBit 1 29 = true) := by decide
  rw [claimFold_cons, if_neg hb, c2Hash29]
  exact c2FoldClaim30

/-- The claim's reconstruction chain on the C2 input from step 28 on. -/
theorem c2FoldClaim28 :
    claimFold c2v28 (List.replicate 5 c2Sib) 1 28 = c2ClaimRoot := by
  show claimFold c2v28 (c2Sib :: List.replicate 4 c2Sib) 1 28 =
    c2ClaimRoot
  have hb : ¬ (Nat.testBit 1 28 = true) := by decide
  rw [claimFold_cons, if_neg hb, c2Hash28]
  exact c2FoldClaim29

/-- The claim's reconstruction chain on the C2 input from step 27 on. -/
theorem c2FoldClaim27 :
    claimFold c2v27 (List.replicate 6 c2Sib) 1 27 = c2ClaimRoot := by
  show claimFold c2v27 (c2Sib :: List.replicate 5 c2Sib) 1 27 =
    c2ClaimRoot
  have hb : ¬ (Nat.testBit 1 27 = true) := by decide
  rw [claimFold_cons, if_neg hb, c2Hash27]
  exact c2FoldClaim28

/-- The claim's reconstruction chain on the C2 input from step 26 on. -/
theorem c2FoldClaim26 :
    claimFold c2v26 (List.replicate 7 c2Sib) 1 26 = c2ClaimRoot := by
  show claimFold c2v26 (c2Sib :: List.replicate 6 c2Sib) 1 26 =
    c2ClaimRoot
  have hb : ¬ (Nat.testBit 1 26 = true) := by decide
  rw [claimFold_cons, if_neg hb, c2Hash26]
  exact c2FoldClaim27

/-- The claim's reconstruction chain on the C2 input from step 25 on. -/
theorem c2FoldClaim25 :
    claimFold c2v25 (List.replicate 8 c2Sib) 1 25 = c2ClaimRoot := by
  show claimFold c2v25 (c2Sib :: List.replicate 7 c2Sib) 1 25 =
    c2ClaimRoot
  have hb : ¬ (Nat.testBit 1 25 = true) := by decide
  rw [claimFold_cons, if_neg hb, c2Hash25]
  exact c2FoldClaim26

/-- The claim's reconstruction chain on the C2 input from step 24 on. -/
theorem c2FoldClaim24 :
    claimFold c2v24 (List.replicate 9 c2Sib) 1 24 = c2ClaimRoot := by
  show claimFold c2v24 (c2Sib :: List.replicate 8 c2Sib) 1 24 =
    c2ClaimRoot
  have hb : ¬ (Nat.testBit 1 24 = true) := by decide
  rw [claimFold_cons, if_neg hb, c2Hash24]
  exact c2FoldClaim25

/-- The claim's reconstruction chain on the C2 input from step 23 on. -/
theorem c2FoldClaim23 :
    claimFold c2v23 (List.replicate 10 c2Sib) 1 23 = c2ClaimRoot := by
  show claimFold c2v23 (c2Sib :: List.replicate 9 c2Sib) 1 23 =
    c2ClaimRoot
  have hb : ¬ (Nat.testBit 1 23 = true) := by decide
  rw [claimFold_cons, if_neg hb, c2Hash23]
  exact c2FoldClaim24

/-- The claim's reconstruction chain on the C2 input from step 22 on. -/
theorem c2FoldClaim22 :
    claimFold c2v22 (List.replicate 11 c2Sib) 1 22 = c2ClaimRoot := by
  show claimFold c2v22 (c2Sib :: List.replicate 10 c2Sib) 1 22 =
    c2ClaimRoot
  have hb : ¬ (Nat.testBit 1 22 = true) := by decide
  rw [claimFold_cons, if_neg hb, c2Hash22]
  exact c2FoldClaim23

/-- The claim's reconstruction chain on the C2 input from step 21 on. -/
theorem c2FoldClaim21 :
    claimFold c2v21 (List.replicate 12 c2Sib) 1 21 = c2ClaimRoot := by
  show claimFold c2v21 (c2Sib :: List.replicate 11 c2Sib) 1 21 =
    c2ClaimRoot
  have hb : ¬ (Nat.testBit 1 21 = true) := by decide
  rw [claimFold_cons, if_neg hb, c2Hash21]
  exact c2FoldClaim22

/-- The claim's reconstruction chain on the C2 input from step 20 on. -/
theorem c2FoldClaim20 :
    claimFold c2v20 (List.replicate 13 c2Sib) 1 20 = c2ClaimRoot := by
  show claimFold c2v20 (c2Sib :: List.replicate 12 c2Sib) 1 20 =
    c2ClaimRoot
  have hb : ¬ (Nat.testBit 1 20 = true) := by decide
  rw [claimFold_cons, if_neg hb, c2Hash20]
  exact c2FoldClaim21

/-- The claim's reconstruction chain on the C2 input from step 19 on. -/
theorem c2FoldClaim19 :
    claimFold c2v19 (List.replicate 14 c2Sib) 1 19 = c2ClaimRoot := by
  show claimFold c2v19 (c2Sib :: List.replicate 13 c2Sib) 1 19 =
    c2ClaimRoot
  have hb : ¬ (Nat.testBit 1 19 = true) := by decide
  rw [claimFold_cons, if_neg hb, c2Hash19]
  exact c2FoldClaim20

/-- The claim's reconstruction chain on the C2 input from step 18 on. -/
theorem c2FoldClaim18 :
    claimFold c2v18 (List.replicate 15 c2Sib) 1 18 = c2ClaimRoot := by
  show claimFold c2v18 (c2Sib :: List.replicate 14 c2Sib) 1 18 =
    c2ClaimRoot
  have hb : ¬ (Nat.testBit 1 18 = true) := by decide
  rw [claimFold_cons, if_neg hb, c2Hash18]
  exact c2FoldClaim19

/-- The claim's reconstruction chain on the C2 input from step 17 on. -/
theorem c2FoldClaim17 :
    claimFold c2v17 (List.replicate 16 c2Sib) 1 17 = c2ClaimRoot := by
  show claimFold c2v17 (c2Sib :: List.replicate 15 c2Sib) 1 17 =
    c2ClaimRoot
  have hb : ¬ (Nat.testBit 1 17 = true) := by decide
  rw [claimFold_cons, if_neg hb, c2Hash17]
  exact c2FoldClaim18

/-- The claim's reconstruction chain on the C2 input from step 16 on. -/
theorem c2FoldClaim16 :
    claimFold c2v16 (List.replicate 17 c2Sib) 1 16 = c2ClaimRoot := by
  show claimFold c2v16 (c2Sib :: List.replicate 16 c2Sib) 1 16 =
    c2ClaimRoot
  have hb : ¬ (Nat.testBit 1 16 = true) := by decide
  rw [claimFold_cons, if_neg hb, c2Hash16]
  exact c2FoldClaim17

/-- The claim's reconstruction chain on the C2 input from step 15 on. -/
theorem c2FoldClaim15 :
    claimFold c2v15 (List.replicate 18 c2Sib) 1 15 = c2ClaimRoot := by
  show claimFold c2v15 (c2Sib :: List.replicate 17 c2Sib) 1 15 =
    c2ClaimRoot
  have hb : ¬ (Nat.testBit 1 15 = true) := by decide
  rw [claimFold_cons, if_neg hb, c2Hash15]
  exact c2FoldClaim16

/-- The claim's reconstruction chain on the C2 input from step 14 on. -/
theorem c2FoldClaim14 :
    claimFold c2v14 (List.replicate 19 c2Sib) 1 14 = c2ClaimRoot := by
  show claimFold c2v14 (c2Sib :: List.replicate 18 c2Sib) 1 14 =
    c2ClaimRoot
  have hb : ¬ (Nat.testBit 1 14 = true) := by decide
  rw [claimFold_cons, if_neg hb, c2Hash14]
  exact c2FoldClaim15

/-- The claim's reconstruction chain on the C2 input from step 13 on. -/
theorem c2FoldClaim13 :
    claimFold c2v13 (List.replicate 20 c2Sib) 1 13 = c2ClaimRoot := by
  show claimFold c2v13 (c2Sib :: List.replicate 19 c2Sib) 1 13 =
    c2ClaimRoot
  have hb : ¬ (Nat.testBit 1 13 = true) := by decide
  rw [claimFold_cons, if_neg hb, c2Hash13]
  exact c2FoldClaim14

/-- The claim's reconstruction chain on the C2 input from step 12 on. -/
theorem c2FoldClaim12 :
    claimFold c2v12 (List.replicate 21 c2Sib) 1 12 = c2ClaimRoot := by
  show claimFold c2v12 (c2Sib :: List.replicate 20 c2Sib) 1 12 =
    c2ClaimRoot
  have hb : ¬ (Nat.testBit 1 12 = true) := by decide
  rw [claimFold_cons, if_neg hb, c2Hash12]
  exact c2FoldClaim13

/-- The claim's reconstruction chain on the C2 input from step 11 on. -/
theorem c2FoldClaim11 :
    claimFold c2v11 (List.replicate 22 c2Sib) 1 11 = c2ClaimRoot := by
  show claimFold c2v11 (c2Sib :: List.replicate 21 c2Sib) 1 11 =
    c2ClaimRoot
  have hb : ¬ (Nat.testBit 1 11 = true) := by decide
  rw [claimFold_cons, if_neg hb, c2Hash11]
  exact c2FoldClaim12

/-- The claim's reconstruction chain on the C2 input from step 10 on. -/
theorem c2FoldClaim10 :
    claimFold c2v10 (List.replicate 23 c2Sib) 1 10 = c2ClaimRoot := by
  show claimFold c2v10 (c2Sib :: List.replicate 22 c2Sib) 1 10 =
    c2ClaimRoot
  have hb : ¬ (Nat.testBit 1 10 = true) := by decide
  rw [claimFold_cons, if_neg hb, c2Hash10]
  exact c2FoldClaim11

/-- The claim's reconstruction chain on the C2 input from step 9 on. -/
theorem c2FoldClaim9 :
    claimFold c2v9 (List.replicate 24 c2Sib) 1 9 = c2ClaimRoot := by
  show claimFold c2v9 (c2Sib :: List.replicate 23 c2Sib) 1 9 =
    c2ClaimRoot
  have hb : ¬ (Nat.testBit 1 9 = true) := by decide
  rw [claimFold_cons, if_neg hb, c2Hash9]
  exact c2FoldClaim10

/-- The claim's reconstruction chain on the C2 input from step 8 on. -/
theorem c2FoldClaim8 :
    claimFold c2v8 (List.replicate 25 c2Sib) 1 8 = c2ClaimRoot := by
  show claimFold c2v8 (c2Sib :: List.replicate 24 c2Sib) 1 8 =
    c2ClaimRoot
  have hb : ¬ (Nat.testBit 1 8 = true) := by decide
  rw [claimFold_cons, if_neg hb, c2Hash8]
  exact c2FoldClaim9

/-- The claim's reconstruction chain on the C2 input from step 7 on. -/
theorem c2FoldClaim7 :
    claimFold c2v7 (List.replicate 26 c2Sib) 1 7 = c2ClaimRoot := by
  show claimFold c2v7 (c2Sib :: List.replicate 25 c2Sib) 1 7 =
    c2ClaimRoot
  have hb : ¬ (Nat.testBit 1 7 = true) := by decide
  rw [claimFold_cons, if_neg hb, c2Hash7]
  exact c2FoldClaim8

/-- The claim's reconstruction chain on the C2 input from step 6 on. -/
theorem c2FoldClaim6 :
    claimFold c2v6 (List.replicate 27 c2Sib) 1 6 = c2ClaimRoot := by
  show claimFold c2v6 (c2Sib :: List.replicate 26 c2Sib) 1 6 =
    c2ClaimRoot
  have hb : ¬ (Nat.testBit 1 6 = true) := by decide
  rw [claimFold_cons, if_neg hb, c2Hash6]
  exact c2FoldClaim7

/-- The claim's reconstruction chain on the C2 input from step 5 on. -/
theorem c2FoldClaim5 :
    claimFold c2v5 (List.replicate 28 c2Sib) 1 5 = c2ClaimRoot := by
  show claimFold c2v5 (c2Sib :: List.replicate 27 c2Sib) 1 5 =
    c2ClaimRoot
  have hb : ¬ (Nat.testBit 1 5 = true) := by decide
  rw [claimFold_cons, if_neg hb, c2Hash5]
  exact c2FoldClaim6

/-- The claim's reconstruction chain on the C2 input from step 4 on. -/
theorem c2FoldClaim4 :
    claimFold c2v4 (List.replicate 29 c2Sib) 1 4 = c2ClaimRoot := by
  show claimFold c2v4 (c2Sib :: List.replicate 28 c2Sib) 1 4 =
    c2ClaimRoot
  have hb : ¬ (Nat.testBit 1 4 = true) := by decide
  rw [claimFold_cons, if_neg hb, c2Hash4]
  exact c2FoldClaim5

/-- The claim's reconstruction chain on the C2 input from step 3 on. -/
theorem c2FoldClaim3 :
    claimFold c2v3 (List.replicate 30 c2Sib) 1 3 = c2ClaimRoot := by
  show claimFold c2v3 (c2Sib :: List.replicate 29 c2Sib) 1 3 =
    c2ClaimRoot
  have hb : ¬ (Nat.testBit 1 3 = true) := by decide
  rw [claimFold_cons, if_neg hb, c2Hash3]
  exact c2FoldClaim4

/-- The claim's reconstruction chain on the C2 input from step 2 on. -/
theorem c2FoldClaim2 :
    claimFold c2v2 (List.replicate 31 c2Sib) 1 2 = c2ClaimRoot := by
  show claimFold c2v2 (c2Sib :: List.replicate 30 c2Sib) 1 2 =
    c2ClaimRoot
  have hb : ¬ (Nat.testBit 1 2 = true) := by decide
  rw [claimFold_cons, if_neg hb, c2Hash2]
  exact c2FoldClaim3

/-- The claim's reconstruction chain on the C2 input from step 1 on. -/
theorem c2FoldClaim1 :
    claimFold c2v1 (List.replicate 32 c2Sib) 1 1 = c2ClaimRoot := by
  show claimFold c2v1 (c2Sib :: List.replicate 31 c2Sib) 1 1 =
    c2ClaimRoot
  have hb : ¬ (Nat.testBit 1 1 = true) := by decide
  rw [claimFold_cons, if_neg hb, c2Hash1]
  exact c2FoldClaim2

/-- The claim's reconstruction chain on the C2 input from step 0 on. -/
theorem c2FoldClaim0 :
    claimFold c2Leaf c2Proof 1 0 = c2ClaimRoot := by
  show claimFold c2Leaf (c2Sib :: List.replicate 32 c2Sib) 1 0 =
    c2ClaimRoot
  have hb : Nat.testBit 1 0 = true := by decide
  rw [claimFold_cons, if_pos hb, c2Hash0]
  exact c2FoldClaim1

/-- C2 counterexample: on a 33-sibling proof with leaf index 1,
`verifyProof` accepts `c2Root`, yet the reconstruction the claim describes
(concatenation order from bit `i` of the leaf index) produces a different
root — at level 32 the source re-reads bit 0, because JavaScript reduces
shift counts mod 32. -/
theorem verifyProof_bit32_counterexample :
    Compression.verifyProof c2Leaf c2Proof 1 c2Root = true ∧
    claimReconstructRoot c2Leaf c2Proof 1 ≠ c2Root := by
  constructor
  · unfold Compression.verifyProof
    have hlen : ¬ (c2Proof.length = 0) := by decide
    rw [if_neg hlen, c2FoldJs0]
    exact decide_eq_true rfl
  · intro hcontra
    unfold claimReconstructRoot at hcontra
    rw [c2FoldClaim0] at hcontra
    exact absurd hcontra (by decide)

/-- Helper: below level 32 the JavaScript-reduced bit test agrees with the
plain bit test, so the two folds agree while at most 32 siblings remain. -/
theorem proofFold_eq_claimFold (proof : List Bytes) :
    ∀ (current : Bytes) (leafIndex i : Nat), i + proof.length ≤ 32 →
      Compression.proofFold current proof leafIndex i =
        claimFold current proof leafIndex i := by
  induction proof with
  | nil => intro current leafIndex i h; rfl
  | cons sibling rest ih =>
    intro current leafIndex i h
    have hlen : i + (rest.length + 1) ≤ 32 := by simpa using h
    have hi : i % 32 = i := Nat.mod_eq_of_lt (by omega)
    unfold Compression.proofFold claimFold
    rw [hi]
    by_cases hb : Nat.testBit leafIndex i
    · simp only [hb, if_true]
      exact ih _ _ _ (by omega)
    · simp only [hb, if_false]
      exact ih _ _ _ (by omega)

/-- C2 amended: `verifyProof` succeeds iff the root reconstructed by the
source's hash chain (keccak-256, order from bit `i mod 32` of the leaf
index, JavaScript shift semantics) equals `root`; that chain agrees with
the claim's bit-`i` reconstruction whenever the proof has at most 32
siblings, and an empty proof verifies iff the leaf equals the root. -/
theorem verifyProof_reconstruction :
    ∀ (leaf : Bytes) (proof : List Bytes) (leafIndex : Nat) (root : Bytes),
      (Compression.verifyProof leaf proof leafIndex root = true ↔
        Compression.proofFold leaf proof leafIndex 0 = root) ∧
      (proof.length ≤ 32 →
        Compression.proofFold leaf proof leafIndex 0 =
          claimReconstructRoot leaf proof leafIndex) ∧
      (proof = [] →
        (Compression.verifyProof leaf proof leafIndex root = true ↔
          leaf = root)) := by
  intro leaf proof leafIndex root
  refine ⟨?_, ?_, ?_⟩
  · unfold Compression.verifyProof
    split
    · next h =>
      have hnil : proof = [] := List.length_eq_zero.mp h
      subst hnil
      simp [Compression.proofFold, decide_eq_true_eq]
    · simp [decide_eq_true_eq]
  · intro h
    exact proofFold_eq_claimFold proof leaf leafIndex 0 (by omega)
  · intro h
    subst h
    simp [Compression.verifyProof, decide_eq_true_eq]

/-- Witness for C2 amended: a concrete empty-proof case and a concrete
one-sibling case with the hypotheses discharged. -/
theorem verifyProof_reconstruction_witness :
    Compression.verifyProof (List.replicate 32 (byteOf 0)) [] 0
        (List.replicate 32 (byteOf 0)) = true ∧
      Compression.proofFold (List.replicate 32 (byteOf 0))
          [List.replicate 32 (byteOf 1)] 1 0 =
        claimReconstructRoot (List.replicate 32 (byteOf 0))
          [List.replicate 32 (byteOf 1)] 1 :=
  ⟨((verifyProof_reconstruction (List.replicate 32 (byteOf 0)) [] 0
      (List.replicate 32 (byteOf 0))).2.2 rfl).mpr rfl,
   (verifyProof_reconstruction (List.replicate 32 (byteOf 0))
      [List.replicate 32 (byteOf 1)] 1 (List.replicate 32 (byteOf 0))).2.1
      (by decide)⟩

set_option maxRecDepth 10000 in
/-- C1 counterexample: with two admitted voter leaves, verifying the first
leaf with the proof the tree produces for index 0 against the root the tree
produces after all admissions fails, because that root is the second leaf. -/
theorem admitted_leaf_vs_final_root_counterexample :
    Compression.verifyProof (c1Leaves.getD 0 [])
      (Compression.getProof c1Leaves 0) 0 (Compression.getRoot c1Leaves) =
      false := by decide

/-- Helper: `take (i+1)` splits off the `i`-th element at the end. -/
theorem take_succ_concat (l : List Bytes) :
    ∀ i : Nat, i < l.length → l.take (i + 1) = l.take i ++ [l.getD i []] := by
  induction l with
  | nil => intro i h; simp at h
  | cons a t ih =>
    intro i h
    cases i with
    | zero => simp
    | succ j =>
      have hj : j < t.length := by simpa using h
      simp [List.take_succ_cons, List.getD_cons_succ, ih j hj]

/-- Helper: the root right after the `i`-th admission is the `i`-th leaf. -/
theorem getRoot_take_succ (leaves : List Bytes) (i : Nat)
    (h : i < leaves.length) :
    Compression.getRoot (leaves.take (i + 1)) = leaves.getD i [] := by
  rw [take_succ_concat leaves i h, getRoot_concat]

/-- C1 amended: an admitted leaf verifies, with the (empty) proof the tree
produces for its index, against the root produced at admission time — the
root right after that leaf was added; against the root produced after all
admissions it verifies iff the leaf equals the last admitted leaf. -/
theorem admitted_leaf_verifies_at_admission_root :
    ∀ (leaves : List Bytes) (i : Nat), i < leaves.length →
      Compression.verifyProof (leaves.getD i [])
          (Compression.getProof (leaves.take (i + 1)) i) i
          (Compression.getRoot (leaves.take (i + 1))) = true ∧
        (Compression.verifyProof (leaves.getD i [])
            (Compression.getProof leaves i) i
            (Compression.getRoot leaves) = true ↔
          leaves.getD i [] = Compression.getRoot leaves) := by
  intro leaves i h
  constructor
  · show Compression.verifyProof (leaves.getD i []) [] i
      (Compression.getRoot (leaves.take (i + 1))) = true
    unfold Compression.verifyProof
    rw [if_pos (show ([] : List Bytes).length = 0 from rfl),
      getRoot_take_succ leaves i h]
    exact decide_eq_true rfl
  · show Compression.verifyProof (leaves.getD i []) [] i
        (Compression.getRoot leaves) = true ↔
      leaves.getD i [] = Compression.getRoot leaves
    unfold Compression.verifyProof
    rw [if_pos (show ([] : List Bytes).length = 0 from rfl)]
    exact decide_eq_true_iff

set_option maxRecDepth 10000 in
/-- Witness for C1 amended: the second admitted leaf of the concrete
two-leaf tree verifies against its admission-time root. -/
theorem admitted_leaf_verifies_at_admission_root_witness :
    Compression.verifyProof (c1Leaves.getD 1 [])
      (Compression.getProof (c1Leaves.take 2) 1) 1
      (Compression.getRoot (c1Leaves.take 2)) = true :=
  (admitted_leaf_verifies_at_admission_root c1Leaves 1 (by decide)).1

/-- C6: the SDK leaf derivation hashes the fixed 104-byte layout
voter ‖ election ‖ attestation ‖ registeredAt (signed 64-bit little-endian)
with keccak-256, and the test suite's reimplementation agrees with the SDK
on every input (the timestamp bound is where `writeBigInt64LE` throws). -/
theorem createCompressedVoterLeaf_contract :
    ∀ (voter election attestation : Bytes) (registeredAt : Int),
      voter.length = 32 → election.length = 32 → attestation.length = 32 →
      -(2 ^ 63 : Int) ≤ registeredAt → registeredAt < 2 ^ 63 →
      Compression.createCompressedVoterLeaf voter election attestation
          registeredAt =
        keccak_256 (voter ++ election ++ attestation ++
          Compression.writeBigInt64LE registeredAt) ∧
      (voter ++ election ++ attestation ++
        Compression.writeBigInt64LE registeredAt).length = 104 ∧
      CompressionTest.createCompressedVoterLeaf voter election attestation
          registeredAt =
        Compression.createCompressedVoterLeaf voter election attestation
          registeredAt := by
  intro v e a t hv he ha hlo hhi
  refine ⟨rfl, ?_, rfl⟩
  simp [Compression.writeBigInt64LE, hv, he, ha]

/-- Witness for C6 at concrete keys and a negative timestamp. -/
theorem createCompressedVoterLeaf_contract_witness :
    CompressionTest.createCompressedVoterLeaf (List.replicate 32 (byteOf 1))
        (List.replicate 32 (byteOf 2)) (List.replicate 32 (byteOf 3)) (-1) =
      Compression.createCompressedVoterLeaf (List.replicate 32 (byteOf 1))
        (List.replicate 32 (byteOf 2)) (List.replicate 32 (byteOf 3)) (-1) :=
  (createCompressedVoterLeaf_contract (List.replicate 32 (byteOf 1))
    (List.replicate 32 (byteOf 2)) (List.replicate 32 (byteOf 3)) (-1) rfl rfl
    rfl (by decide) (by decide)).2.2

/-- C8: the SDK nullifier hashes the fixed 72-byte layout
voter ‖ election ‖ nonce (signed 64-bit little-endian) with keccak-256; the
nonce defaults to 0 when omitted, and the function is deterministic. -/
theorem createNullifier_contract :
    ∀ (voter election : Bytes) (nonce : Int),
      voter.length = 32 → election.length = 32 →
      -(2 ^ 63 : Int) ≤ nonce → nonce < 2 ^ 63 →
      Compression.createNullifier voter election nonce =
        keccak_256 (voter ++ election ++ Compression.writeBigInt64LE nonce) ∧
      (voter ++ election ++ Compression.writeBigInt64LE nonce).length = 72 ∧
      Compression.createNullifierDefaultNonce voter election =
        Compression.createNullifier voter election 0 ∧
      ∀ (voter2 election2 : Bytes) (nonce2 : Int),
        voter2 = voter → election2 = election → nonce2 = nonce →
        Compression.createNullifier voter2 election2 nonce2 =
          Compression.createNullifier voter election nonce := by
  intro v e n hv he hlo hhi
  refine ⟨rfl, ?_, rfl, ?_⟩
  · simp [Compression.writeBigInt64LE, hv, he]
  · intro v2 e2 n2 hv2 he2 hn2
    rw [hv2, he2, hn2]

/-- Witness for C8 at concrete keys and the default nonce. -/
theorem createNullifier_contract_witness :
    Compression.createNullifierDefaultNonce (List.replicate 32 (byteOf 5))
        (List.replicate 32 (byteOf 6)) =
      Compression.createNullifier (List.replicate 32 (byteOf 5))
        (List.replicate 32 (byteOf 6)) 0 ∧
    (List.replicate 32 (byteOf 5) ++ List.replicate 32 (byteOf 6) ++
      Compression.writeBigInt64LE 0).length = 72 :=
  ⟨(createNullifier_contract (List.replicate 32 (byteOf 5))
      (List.replicate 32 (byteOf 6)) 0 rfl rfl (by decide) (by decide)).2.2.1,
   (createNullifier_contract (List.replicate 32 (byteOf 5))
      (List.replicate 32 (byteOf 6)) 0 rfl rfl (by decide) (by decide)).2.1⟩

/-- Helper: a zero-initialized counter list sums to zero. -/
theorem sum_replicate_zero (n : Nat) : (List.replicate n (0 : Nat)).sum = 0 := by
  induction n with
  | zero => rfl
  | succ k ih => simp [List.replicate_succ, ih]

/-- Helper: bumping the `i`-th counter bumps the sum by one. -/
theorem sum_set_getD_succ (l : List Nat) :
    ∀ i : Nat, i < l.length →
      (l.set i (l.getD i 0 + 1)).sum = l.sum + 1 := by
  induction l with
  | nil => intro i h; simp at h
  | cons a t ih =>
    intro i h
    cases i with
    | zero => simp [List.sum_cons]; omega
    | succ j =>
      have hj : j < t.length := by simpa using h
      have := ih j hj
      simp only [List.set, List.getD_cons_succ, List.sum_cons, this]
      omega

/-- Inversion of a successful `castVote`: the choice was in range and the
effect is exactly one counter bump, one total bump, one nullifier. -/
theorem castVote_ok (now : Int) (e : Gov.Election) (v : Gov.VoteEntry)
    (e2 : Gov.Election) (h : Gov.castVote now e v = .ok e2) :
    v.choice < e.candidates.length ∧
      e2.voteCounts = e.voteCounts.set v.choice
        (e.voteCounts.getD v.choice 0 + 1) ∧
      e2.totalVotes = e.totalVotes + 1 ∧
      e2.candidates = e.candidates := by
  unfold Gov.castVote at h
  split_ifs at h <;>
    first
      | exact Except.noConfusion h
      | (injection h with heq
         subst heq
         exact ⟨by omega, rfl, rfl, rfl⟩)

/-- Inversion of a successful `registerVoter`: the tally is untouched. -/
theorem registerVoter_ok (now : Int) (e : Gov.Election) (wallet : Bytes)
    (att : Gov.Attestation) (registeredAt : Int) (e2 : Gov.Election)
    (h : Gov.registerVoter now e wallet att registeredAt = .ok e2) :
    e2.voteCounts = e.voteCounts ∧ e2.totalVotes = e.totalVotes ∧
      e2.candidates = e.candidates := by
  unfold Gov.registerVoter at h
  split_ifs at h <;>
    first
      | exact Except.noConfusion h
      | (injection h with heq
         subst heq
         exact ⟨rfl, rfl, rfl⟩)

/-- Inversion of a successful `closeElection`: only the status changes. -/
theorem closeElection_ok (e : Gov.Election) (caller : Bytes)
    (e2 : Gov.Election) (h : Gov.closeElection e caller = .ok e2) :
    e2.voteCounts = e.voteCounts ∧ e2.totalVotes = e.totalVotes ∧
      e2.candidates = e.candidates := by
  unfold Gov.closeElection at h
  split_ifs at h <;>
    first
      | exact Except.noConfusion h
      | (injection h with heq
         subst heq
         exact ⟨rfl, rfl, rfl⟩)

/-- Inversion of a successful `createElection`: zero tallies, counters in
bijection with the candidates. -/
theorem createElection_ok (now : Int) (authority electionRef : Bytes)
    (candidates : List String) (startTime endTime : Int)
    (useCompression : Bool) (capacity : Nat) (e : Gov.Election)
    (h : Gov.createElection now authority electionRef candidates startTime
      endTime useCompression capacity = .ok e) :
    e.voteCounts = List.replicate e.candidates.length 0 ∧
      e.totalVotes = 0 := by
  unfold Gov.createElection at h
  split_ifs at h <;>
    first
      | exact Except.noConfusion h
      | (injection h with heq
         subst heq
         exact ⟨rfl, rfl⟩)

/-- A successful `castVote` preserves the §3 tally invariant. -/
theorem castVote_invariant (now : Int) (e : Gov.Election) (v : Gov.VoteEntry)
    (e2 : Gov.Election) (h : Gov.castVote now e v = .ok e2)
    (hi : Gov.TallyInvariant e) : Gov.TallyInvariant e2 := by
  obtain ⟨hchoice, hcounts, htotal, hcand⟩ := castVote_ok now e v e2 h
  obtain ⟨hsum, hlen⟩ := hi
  constructor
  · rw [hcounts, htotal, sum_set_getD_succ e.voteCounts v.choice (by omega),
      hsum]
  · rw [hcounts, List.length_set, hlen, hcand]

/-- A successful batch preserves the §3 tally invariant. -/
theorem castBatch_invariant (now : Int) :
    ∀ (entries : List Gov.VoteEntry) (e e2 : Gov.Election),
      Gov.castBatch now e entries = .ok e2 →
      Gov.TallyInvariant e → Gov.TallyInvariant e2 := by
  intro entries
  induction entries with
  | nil =>
    intro e e2 h hi
    injection h with heq
    subst heq
    exact hi
  | cons v rest ih =>
    intro e e2 h hi
    unfold Gov.castBatch at h
    cases hcv : Gov.castVote now e v with
    | error err => rw [hcv] at h; exact Except.noConfusion h
    | ok emid =>
      rw [hcv] at h
      exact ih emid e2 h (castVote_invariant now e v emid hcv hi)

/-- Every reachable election state satisfies the §3 tally invariant. -/
theorem reachable_tallyInvariant (e : Gov.Election) (h : Gov.Reachable e) :
    Gov.TallyInvariant e := by
  induction h with
  | created now authority electionRef candidates startTime endTime
      useCompression capacity e hc =>
    obtain ⟨hcounts, htotal⟩ := createElection_ok now authority electionRef
      candidates startTime endTime useCompression capacity e hc
    exact ⟨by rw [hcounts, htotal, sum_replicate_zero],
      by rw [hcounts, List.length_replicate]⟩
  | registered now e wallet att registeredAt e2 hr hro ih =>
    obtain ⟨hc, ht, hcand⟩ := registerVoter_ok now e wallet att registeredAt
      e2 hro
    exact ⟨by rw [hc, ht, ih.1], by rw [hc, hcand, ih.2]⟩
  | voted now e v e2 hr hvo ih => exact castVote_invariant now e v e2 hvo ih
  | batched now e entries e2 hr hbo ih =>
    exact castBatch_invariant now entries e e2 hbo ih
  | closed e caller e2 hr hco ih =>
    obtain ⟨hc, ht, hcand⟩ := closeElection_ok e caller e2 hco
    exact ⟨by rw [hc, ht, ih.1], by rw [hc, hcand, ih.2]⟩

/-- C4: in every election state reachable by any sequence of operations the
per-candidate counters sum to the aggregate `totalVotes`, and every
successful `castVote` bumps exactly the chosen candidate's counter by one
and the total by one. -/
theorem tally_sum_invariant :
    (∀ e : Gov.Election, Gov.Reachable e →
      e.voteCounts.sum = e.totalVotes) ∧
    ∀ (now : Int) (e : Gov.Election) (v : Gov.VoteEntry)
      (e2 : Gov.Election),
      Gov.castVote now e v = .ok e2 →
      v.choice < e.candidates.length ∧
        e2.voteCounts = e.voteCounts.set v.choice
          (e.voteCounts.getD v.choice 0 + 1) ∧
        e2.totalVotes = e.totalVotes + 1 :=
  ⟨fun e h => (reachable_tallyInvariant e h).1,
   fun now e v e2 h =>
     ⟨(castVote_ok now e v e2 h).1, (castVote_ok now e v e2 h).2.1,
      (castVote_ok now e v e2 h).2.2.1⟩⟩

/-- C5: a batch that fails commits nothing — the caller's state is exactly
the pre-batch state — and it fails with the error of its first failing
entry: some prefix of entries processes successfully and the next entry
fails with exactly the batch's error. -/
theorem castBatch_atomic :
    ∀ (now : Int) (e : Gov.Election) (entries : List Gov.VoteEntry)
      (err : Gov.GovError),
      Gov.castBatch now e entries = .error err →
      Gov.castBatchCommitted now e entries = e ∧
      ∃ i, ∃ h : i < entries.length, ∃ emid : Gov.Election,
        Gov.castBatch now e (entries.take i) = .ok emid ∧
        Gov.castVote now emid (entries.get ⟨i, h⟩) = .error err := by
  intro now e entries
  revert e
  induction entries with
  | nil =>
    intro e err h
    exact Except.noConfusion h
  | cons v rest ih =>
    intro e err h
    have hcommitted : Gov.castBatchCommitted now e (v :: rest) = e := by
      unfold Gov.castBatchCommitted
      rw [h]
    refine ⟨hcommitted, ?_⟩
    unfold Gov.castBatch at h
    cases hcv : Gov.castVote now e v with
    | error e0 =>
      rw [hcv] at h
      injection h with he
      subst he
      exact ⟨0, by simp, e, rfl, hcv⟩
    | ok emid =>
      rw [hcv] at h
      obtain ⟨-, i, hi, emid2, hpre, hfail⟩ := ih emid err h
      refine ⟨i + 1, by simpa using Nat.succ_lt_succ hi, emid2, ?_, hfail⟩
      rw [show (v :: rest).take (i + 1) = v :: rest.take i from rfl]
      unfold Gov.castBatch
      rw [hcv]
      exact hpre

set_option maxRecDepth 10000 in
/-- Witness for C4: a concrete election reached by create, register and one
vote satisfies the sum invariant, and that vote bumped the total by one. -/
theorem tally_sum_invariant_witness :
    govE2.voteCounts.sum = govE2.totalVotes ∧
      govE2.totalVotes = govE1.totalVotes + 1 :=
  ⟨tally_sum_invariant.1 govE2
    (Gov.Reachable.voted 5 govE1 govEntry govE2
      (Gov.Reachable.registered 0 govE0 govWallet govAttestation 0 govE1
        (Gov.Reachable.created 0 govAuthority govElectionRef
          ["Alice", "Bob"] 0 100 false 10 govE0 (by rfl))
        (by rfl))
      (by rfl)),
   (tally_sum_invariant.2 5 govE1 govEntry govE2 (by rfl)).2.2⟩

set_option maxRecDepth 10000 in
/-- Witness for C5: the concrete batch fails with `AlreadyVoted` and the
caller's state is exactly the pre-batch state. -/
theorem castBatch_atomic_witness :
    Gov.castBatchCommitted 5 govBatchElection govBatch = govBatchElection :=
  (castBatch_atomic 5 govBatchElection govBatch .AlreadyVoted (by rfl)).1
